import Mathlib

/-!
A shallow embedding of logln.hpp, the leveled logger.

The header keeps its process-wide state in two static variables, the default
file name and the pointer `logFile_`, and writes to two sinks: the standard
output stream and the stream `logFile_` points to.  The embedding makes that
state explicit (`Proc`) and every function of the header a function from the
state before the call to the state after it together with the way the call
ended (`Result`).

Conventions of the embedding:

* `int` is `Int`; `std::string` is `String`; `bool` is `Bool`.
* `const std::exception *err` is `Option String`: `none` is the null pointer,
  `some e` a pointer to an exception whose `what()` is `e`.
* The clock is an input: the functions that call `getDateStringLogFmt()` take
  the string that call returns as the parameter `date`.  Each of them reads the
  clock once.
* A file is the sequence of characters handed to the streams opened on it;
  stream buffering is not modelled.
* A thrown std::runtime_error is seen through what(), a C string: its text is
  the constructor's argument up to the first NUL character.
-/

set_option linter.unusedVariables false

namespace logln

/-! ## Data model -/

/-- An object of type std::ofstream: the path it was constructed on and
whether the open succeeded (what is_open() answers). -/
structure OfStream where
  path : String
  isOpen : Bool
  deriving DecidableEq, Repr

/-- The process as the header sees it.  `cout` and `cerr` are the characters
written so far to the two standard streams, `disk` the files by path with
their content, `denied` the paths the system refuses to open for appending,
`defaultLogFileName_` and `logFile_` the header's two static variables, and
`leaked` the stream objects that were allocated with new, never closed or
deleted, and are no longer pointed to. -/
structure Proc where
  cout : String
  cerr : String
  disk : List (String × String)
  denied : List String
  defaultLogFileName_ : String
  logFile_ : Option OfStream
  leaked : List OfStream
  deriving DecidableEq, Repr

/-- How a call ends: it returns to its caller, the process exits with a
status (exit), an exception is thrown (std::runtime_error with its what()
text), or a null pointer is dereferenced. -/
inductive Outcome where
  | returned
  | exited (status : Int)
  | thrown (what : String)
  | nullDeref
  deriving DecidableEq, Repr

/-- A void call's result: how it ended and the process state at that point. -/
structure Result where
  outcome : Outcome
  state : Proc
  deriving DecidableEq, Repr

/-- A statement that completes normally in state `s`. -/
def done (s : Proc) : Result := ⟨Outcome.returned, s⟩

/-- Sequencing of statements: the continuation runs only when the first
statement returned. -/
def Result.andThen (r : Result) (k : Proc → Result) : Result :=
  match r.outcome with
  | Outcome.returned => k r.state
  | _ => r

/-! ## Files and streams -/

/-- Content of the file at path `p`, when it exists. -/
def readFile : List (String × String) → String → Option String
  | [], _ => none
  | (q, c) :: rest, p => if q = p then some c else readFile rest p

/-- Append `t` to the file at `p`, creating it when it is absent. -/
def appendFile : List (String × String) → String → String → List (String × String)
  | [], p, t => [(p, t)]
  | (q, c) :: rest, p, t =>
    if q = p then (q, c ++ t) :: rest else (q, c) :: appendFile rest p t

/-- Text of the file at `p`, empty when there is no such file. -/
def fileText (s : Proc) (p : String) : String :=
  (readFile s.disk p).getD ""

/-- The statement std::cout << t. -/
def coutPut (t : String) (s : Proc) : Proc :=
  { s with cout := s.cout ++ t }

/-- The statement std::cerr << t. -/
def cerrPut (t : String) (s : Proc) : Proc :=
  { s with cerr := s.cerr ++ t }

/-- The statement *logFile_ << t on a non-null `logFile_` pointing to `f`: an
open stream appends to its file, a stream that is not open writes nothing. -/
def filePut (f : OfStream) (t : String) (s : Proc) : Proc :=
  if f.isOpen then { s with disk := appendFile s.disk f.path t } else s

/-- The path of the open log file, when there is one. -/
def openPath (s : Proc) : Option String :=
  match s.logFile_ with
  | some f => if f.isOpen then some f.path else none
  | none => none

/-- The stream objects that hold a file open: the one `logFile_` points to
and the leaked ones. -/
def openHandles (s : Proc) : List OfStream :=
  (s.logFile_.toList ++ s.leaked).filter (fun f => f.isOpen)

/-- The process at start: nothing written, the default file name computed,
`logFile_` null. -/
def initial (disk : List (String × String)) (denied : List String) (name : String) : Proc :=
  { cout := "", cerr := "", disk := disk, denied := denied,
    defaultLogFileName_ := name, logFile_ := none, leaked := [] }

/-! ## The header's functions -/

/-- Source: levelStr (logln.hpp 117-136), a switch on the level. -/
def levelStr (level : Int) : String :=
  if level = 0 then "INFO"
  else if level = 1 then "WARNING"
  else if level = 2 then "ERROR"
  else if level = 3 then "FATAL"
  else if level = 4 then "PANIC"
  else if level = 5 then "DEBUG"
  else ""

/-- Source: CustomInit (logln.hpp 70-78).  The pointer is overwritten with a
new stream opened for appending (the file is created when absent); when the
open fails the message goes to the error stream and the process exits with
status 1. -/
def CustomInit (filePath : String) (s : Proc) : Result :=
  let opened := decide (filePath ∉ s.denied)
  let s1 : Proc :=
    { s with
      disk := if opened then appendFile s.disk filePath "" else s.disk
      logFile_ := some ⟨filePath, opened⟩
      leaked := s.logFile_.toList ++ s.leaked }
  if !opened then
    ⟨Outcome.exited 1, cerrPut "\n" (cerrPut filePath (cerrPut "Error opening log file: " s1))⟩
  else
    done s1

/-- Source: Init (logln.hpp 64-67). -/
def Init (s : Proc) : Result :=
  CustomInit s.defaultLogFileName_ s

/-- Source: Close (logln.hpp 81-89). -/
def Close (s : Proc) : Result :=
  match s.logFile_ with
  | some _ => done { s with logFile_ := none }
  | none => done s

/-- Source: ManualLogf (logln.hpp 357-367). -/
def ManualLogf (text : String) (level : Int) (isSilent : Bool) (s : Proc) : Result :=
  let s1 := if !isSilent then coutPut text s else s
  let s2 :=
    match s1.logFile_ with
    | some f => filePut f text s1
    | none => s1
  done s2

/-- Source: StartManualLogf (logln.hpp 370-393). -/
def StartManualLogf (text : String) (level : Int) (isSilent : Bool) (date : String)
    (s : Proc) : Result :=
  let levelStr_ := levelStr level
  let msg :=
    if levelStr_ ≠ "" then date ++ " " ++ levelStr_ ++ " " ++ text
    else date ++ " " ++ text
  let s1 := if !isSilent then coutPut msg s else s
  let s2 :=
    match s1.logFile_ with
    | some f => filePut f msg s1
    | none => s1
  done s2

/-- Source: Printf (logln.hpp 396-406). -/
def Printf (text : String) (level : Int) (isSilent : Bool) (s : Proc) : Result :=
  let s1 := if !isSilent then coutPut text s else s
  let s2 :=
    match s1.logFile_ with
    | some f => filePut f text s1
    | none => s1
  done s2

/-- Source: Logln (logln.hpp 409-442).  std::endl is the newline character
(and a flush, which the embedding does not see). -/
def Logln (line : String) (level : Int) (isSilent : Bool) (date : String)
    (s : Proc) : Result :=
  let levelStr_ := levelStr level
  let msg :=
    if levelStr_ ≠ "" then date ++ " " ++ levelStr_ ++ " " ++ line
    else date ++ " " ++ line
  let s1 := if !isSilent then coutPut "\n" (coutPut msg s) else s
  let s2 :=
    match s1.logFile_ with
    | some f => filePut f "\n" (filePut f msg s1)
    | none => s1
  done s2

/-- Source: printSuccess (logln.hpp 351-354). -/
def printSuccess (msg : String) (successLevel : Int) (isSilent : Bool) (date : String)
    (s : Proc) : Result :=
  Logln ("Success " ++ msg ++ ".") successLevel isSilent date s

/-- The C++ expression (b ? "true" : "false"). -/
def boolText (b : Bool) : String :=
  if b then "true" else "false"

/-- The text a std::runtime_error constructed from `t` gives through what().
It is a C string, so it is `t` up to, and without, its first NUL character. -/
def runtimeErrorWhat (t : String) : String :=
  ⟨t.data.takeWhile (fun c => c != Char.ofNat 0)⟩

/-- Source: errorIfNotFalse (logln.hpp 311-317). -/
def errorIfNotFalse (b : Bool) (msg : String) (date : String) (s : Proc) : Result :=
  if !b then
    Logln ("Error occurred " ++ msg ++ ": " ++ boolText b) 2 false date s
  else
    done s

/-- Source: warnIfNotFalse (logln.hpp 320-326). -/
def warnIfNotFalse (b : Bool) (msg : String) (date : String) (s : Proc) : Result :=
  if !b then
    Logln (msg ++ ": " ++ boolText b) 1 false date s
  else
    done s

/-- Source: fatalIfNotFalse (logln.hpp 330-337). -/
def fatalIfNotFalse (b : Bool) (msg : String) (date : String) (s : Proc) : Result :=
  if !b then
    (Logln ("Fatal error occurred " ++ msg ++ ": " ++ boolText b) 3 false date s).andThen
      fun s1 => ⟨Outcome.exited 1, s1⟩
  else
    done s

/-- Source: panicIfNotFalse (logln.hpp 341-348).  The line is written with
the whole std::string; the exception carries the same std::string and shows
it through what(). -/
def panicIfNotFalse (b : Bool) (msg : String) (date : String) (s : Proc) : Result :=
  if !b then
    (Logln ("Panic " ++ msg ++ ": " ++ boolText b) 4 false date s).andThen
      fun s1 => ⟨Outcome.thrown (runtimeErrorWhat ("Panic " ++ msg ++ ": " ++ boolText b)), s1⟩
  else
    done s

/-- Source: warningWithError (logln.hpp 277-280).  The error pointer is
dereferenced without a null check. -/
def warningWithError (msg : String) (err : Option String) (date : String)
    (s : Proc) : Result :=
  match err with
  | some what => Logln (msg ++ ": " ++ what) 1 false date s
  | none => ⟨Outcome.nullDeref, s⟩

/-- Source: warning (logln.hpp 283-286). -/
def warning (msg : String) (err : Option String) (date : String) (s : Proc) : Result :=
  match err with
  | some what => Logln (msg ++ ": " ++ what) 1 false date s
  | none => ⟨Outcome.nullDeref, s⟩

/-- Source: printError (logln.hpp 289-292). -/
def printError (msg : String) (err : Option String) (date : String) (s : Proc) : Result :=
  match err with
  | some what => Logln ("Error occurred " ++ msg ++ ": " ++ what) 2 false date s
  | none => ⟨Outcome.nullDeref, s⟩

/-- Source: fatalError (logln.hpp 296-300). -/
def fatalError (msg : String) (err : Option String) (date : String) (s : Proc) : Result :=
  match err with
  | some what =>
    (Logln ("Fatal error encountered " ++ msg ++ ": " ++ what) 3 false date s).andThen
      fun s1 => ⟨Outcome.exited 1, s1⟩
  | none => ⟨Outcome.nullDeref, s⟩

/-- Source: panicError (logln.hpp 304-308). -/
def panicError (msg : String) (err : Option String) (date : String) (s : Proc) : Result :=
  match err with
  | some what =>
    (Logln ("Panic " ++ msg ++ ": " ++ what) 4 false date s).andThen
      fun s1 => ⟨Outcome.thrown (runtimeErrorWhat ("Panic " ++ msg ++ ": " ++ what)), s1⟩
  | none => ⟨Outcome.nullDeref, s⟩

/-- Source: errorIfNotOk (logln.hpp 251-254). -/
def errorIfNotOk (ok : Bool) (msg : String) (date : String) (s : Proc) : Result :=
  errorIfNotFalse ok msg date s

/-- Source: warnIfNotOk (logln.hpp 257-260). -/
def warnIfNotOk (ok : Bool) (msg : String) (date : String) (s : Proc) : Result :=
  warnIfNotFalse ok msg date s

/-- Source: fatalIfNotOk (logln.hpp 264-267). -/
def fatalIfNotOk (ok : Bool) (msg : String) (date : String) (s : Proc) : Result :=
  fatalIfNotFalse ok msg date s

/-- Source: panicIfNotOk (logln.hpp 271-274). -/
def panicIfNotOk (ok : Bool) (msg : String) (date : String) (s : Proc) : Result :=
  panicIfNotFalse ok msg date s

/-- Source: PrintWarningOrSuccessIfNotOk (logln.hpp 140-150). -/
def PrintWarningOrSuccessIfNotOk (ok : Bool) (msg : String) (successLevel : Int)
    (isSuccessSilent : Bool) (date : String) (s : Proc) : Result :=
  if !ok then warnIfNotOk ok msg date s
  else printSuccess msg successLevel isSuccessSilent date s

/-- Source: PrintErrorOrSuccessIfNotOk (logln.hpp 154-164). -/
def PrintErrorOrSuccessIfNotOk (ok : Bool) (msg : String) (successLevel : Int)
    (isSuccessSilent : Bool) (date : String) (s : Proc) : Result :=
  if !ok then errorIfNotFalse ok msg date s
  else printSuccess msg successLevel isSuccessSilent date s

/-- Source: PrintFatalOrSuccessIfNotOk (logln.hpp 168-178). -/
def PrintFatalOrSuccessIfNotOk (ok : Bool) (msg : String) (successLevel : Int)
    (isSuccessSilent : Bool) (date : String) (s : Proc) : Result :=
  if !ok then fatalIfNotFalse ok msg date s
  else printSuccess msg successLevel isSuccessSilent date s

/-- Source: PrintPanicOrSuccessIfNotOk (logln.hpp 182-192). -/
def PrintPanicOrSuccessIfNotOk (ok : Bool) (msg : String) (successLevel : Int)
    (isSuccessSilent : Bool) (date : String) (s : Proc) : Result :=
  if !ok then panicIfNotFalse ok msg date s
  else printSuccess msg successLevel isSuccessSilent date s

/-- Source: PrintWarningOrSuccess (logln.hpp 196-206). -/
def PrintWarningOrSuccess (msg : String) (err : Option String) (successLevel : Int)
    (isSuccessSilent : Bool) (date : String) (s : Proc) : Result :=
  if err.isSome then warningWithError msg err date s
  else printSuccess msg successLevel isSuccessSilent date s

/-- Source: PrintErrorOrSuccess (logln.hpp 210-220). -/
def PrintErrorOrSuccess (msg : String) (err : Option String) (successLevel : Int)
    (isSuccessSilent : Bool) (date : String) (s : Proc) : Result :=
  if err.isSome then printError msg err date s
  else printSuccess msg successLevel isSuccessSilent date s

/-- Source: PrintPanicOrSuccess (logln.hpp 224-234). -/
def PrintPanicOrSuccess (msg : String) (err : Option String) (successLevel : Int)
    (isSuccessSilent : Bool) (date : String) (s : Proc) : Result :=
  if err.isSome then panicError msg err date s
  else printSuccess msg successLevel isSuccessSilent date s

/-- Source: PrintFatalOrSuccess (logln.hpp 238-248). -/
def PrintFatalOrSuccess (msg : String) (err : Option String) (successLevel : Int)
    (isSuccessSilent : Bool) (date : String) (s : Proc) : Result :=
  if err.isSome then fatalError msg err date s
  else printSuccess msg successLevel isSuccessSilent date s

/-! ## Observing the sinks -/

/-- The sinks after a call, in `s'`, against the sinks before it, in `s`: the
console got exactly `console`; the open log file, when there is one, got
exactly `file` and no other file changed; without an open log file no file
changed at all; the error stream got nothing. -/
def Wrote (s s' : Proc) (console file : String) : Prop :=
  s'.cout = s.cout ++ console ∧ s'.cerr = s.cerr ∧
  match openPath s with
  | some p =>
    fileText s' p = fileText s p ++ file ∧
      ∀ q : String, q ≠ p → readFile s'.disk q = readFile s.disk q
  | none => s'.disk = s.disk

/-! ## Call sequences -/

/-- The calls CustomInit(path); Close(). -/
def openThenClose (path : String) (s : Proc) : Result :=
  (CustomInit path s).andThen Close

/-- The calls CustomInit(path); Close(); CustomInit(path). -/
def reopen (path : String) (s : Proc) : Result :=
  (openThenClose path s).andThen (CustomInit path)

/-- The calls CustomInit(path); Close(); CustomInit(path);
Logln(line, level, isSilent). -/
def reopenThenLogln (path line : String) (level : Int) (isSilent : Bool) (date : String)
    (s : Proc) : Result :=
  (reopen path s).andThen (Logln line level isSilent date)

/-- The calls CustomInit(first); CustomInit(second) in a fresh process, with
no Close in between. -/
def initTwice (first second : String) : Result :=
  (CustomInit first (initial [] [] "2024_01_02-03_04_05.log")).andThen (CustomInit second)

/-! ## Sample states -/

/-- A process with the log file "app.log" open, holding "old\n", and "> "
already on the console. -/
def sampleOpen : Proc :=
  { cout := "> ", cerr := "", disk := [("other.txt", "keep"), ("app.log", "old\n")],
    denied := [], defaultLogFileName_ := "2024_01_02-03_04_05.log",
    logFile_ := some ⟨"app.log", true⟩, leaked := [] }

/-- A message with a NUL character in it: "a", NUL, "b". -/
def sampleNulMsg : String :=
  ⟨['a', Char.ofNat 0, 'b']⟩

/-- A process without a log file and "> " already on the console. -/
def sampleClosed : Proc :=
  { cout := "> ", cerr := "", disk := [("app.log", "old\n")],
    denied := [], defaultLogFileName_ := "2024_01_02-03_04_05.log",
    logFile_ := none, leaked := [] }

end logln

namespace logln

/-! ## Theorems -/

/-- C1: levelStr gives INFO, WARNING, ERROR, FATAL, PANIC, DEBUG for the
levels 0 to 5 and the empty string for every other integer, negative ones and
those above 5 included. -/
theorem levelStr_table :
    levelStr 0 = "INFO" ∧ levelStr 1 = "WARNING" ∧ levelStr 2 = "ERROR" ∧
    levelStr 3 = "FATAL" ∧ levelStr 4 = "PANIC" ∧ levelStr 5 = "DEBUG" ∧
    ∀ level : Int, (level < 0 ∨ 5 < level) → levelStr level = "" := by
  refine ⟨by decide, by decide, by decide, by decide, by decide, by decide, ?_⟩
  intro level h
  have h0 : level ≠ 0 := by omega
  have h1 : level ≠ 1 := by omega
  have h2 : level ≠ 2 := by omega
  have h3 : level ≠ 3 := by omega
  have h4 : level ≠ 4 := by omega
  have h5 : level ≠ 5 := by omega
  simp [levelStr, h0, h1, h2, h3, h4, h5]

/-- C1 at concrete levels outside 0..5: a negative one and one above 5. -/
theorem levelStr_table_witness :
    ((-3 : Int) < 0 ∨ 5 < (-3 : Int)) ∧ levelStr (-3) = "" ∧ levelStr 6 = "" :=
  ⟨by decide, levelStr_table.2.2.2.2.2.2 (-3) (by decide),
    levelStr_table.2.2.2.2.2.2 6 (by decide)⟩

/-! ### Files, streams and the open log file -/

theorem readFile_appendFile_self (d : List (String × String)) (p t : String) :
    readFile (appendFile d p t) p = some ((readFile d p).getD "" ++ t) := by
  induction d with
  | nil => simp [appendFile, readFile]
  | cons e rest ih =>
    obtain ⟨q, c⟩ := e
    by_cases h : q = p
    · simp [appendFile, readFile, h]
    · simp [appendFile, readFile, h, ih]

theorem readFile_appendFile_of_ne (d : List (String × String)) (p q t : String)
    (h : q ≠ p) : readFile (appendFile d p t) q = readFile d q := by
  induction d with
  | nil =>
    have h1 : ¬ p = q := fun e => h e.symm
    simp [appendFile, readFile, h1]
  | cons e rest ih =>
    obtain ⟨r, c⟩ := e
    by_cases hr : r = p
    · have h1 : ¬ p = q := fun e => h e.symm
      simp [appendFile, readFile, hr, h1]
    · by_cases hq : r = q
      · subst hq
        simp [appendFile, readFile, hr]
      · simp [appendFile, readFile, hr, hq, ih]

theorem openPath_some {s : Proc} {p : String} (h : openPath s = some p) :
    ∃ f : OfStream, s.logFile_ = some f ∧ f.isOpen = true ∧ f.path = p := by
  unfold openPath at h
  cases hf : s.logFile_ with
  | none => simp [hf] at h
  | some f =>
    cases ho : f.isOpen with
    | false => simp [hf, ho] at h
    | true =>
      simp [hf, ho] at h
      exact ⟨f, rfl, ho, h⟩

theorem openPath_none {s : Proc} (h : openPath s = none) :
    s.logFile_ = none ∨ ∃ f : OfStream, s.logFile_ = some f ∧ f.isOpen = false := by
  unfold openPath at h
  cases hf : s.logFile_ with
  | none => exact Or.inl rfl
  | some f =>
    cases ho : f.isOpen with
    | false => exact Or.inr ⟨f, rfl, ho⟩
    | true => simp [hf, ho] at h

theorem fileText_filePut_open (f : OfStream) (t : String) (s : Proc)
    (ho : f.isOpen = true) :
    fileText (filePut f t s) f.path = fileText s f.path ++ t := by
  simp [filePut, ho, fileText, readFile_appendFile_self]

theorem filePut_closed (f : OfStream) (t : String) (s : Proc) (ho : f.isOpen = false) :
    filePut f t s = s := by
  simp [filePut, ho]

theorem filePut_cout (f : OfStream) (t : String) (s : Proc) :
    (filePut f t s).cout = s.cout := by
  unfold filePut
  split <;> rfl

theorem filePut_logFile_ (f : OfStream) (t : String) (s : Proc) :
    (filePut f t s).logFile_ = s.logFile_ := by
  unfold filePut
  split <;> rfl

/-! ### What the four write functions do to the two sinks -/

theorem ManualLogf_cout (text : String) (level : Int) (isSilent : Bool) (s : Proc) :
    (ManualLogf text level isSilent s).state.cout =
      if isSilent then s.cout else s.cout ++ text := by
  cases isSilent <;> cases hf : s.logFile_ <;>
    simp [ManualLogf, done, coutPut, hf, filePut_cout]

theorem ManualLogf_file (text : String) (level : Int) (isSilent : Bool) (s : Proc)
    (p : String) (hopen : openPath s = some p) :
    fileText (ManualLogf text level isSilent s).state p = fileText s p ++ text := by
  obtain ⟨f, hf, ho, rfl⟩ := openPath_some hopen
  cases isSilent <;>
    simp [ManualLogf, done, coutPut, hf, filePut, ho, fileText, readFile_appendFile_self]

theorem ManualLogf_disk (text : String) (level : Int) (isSilent : Bool) (s : Proc)
    (hclosed : openPath s = none) :
    (ManualLogf text level isSilent s).state.disk = s.disk := by
  rcases openPath_none hclosed with hf | ⟨f, hf, ho⟩ <;> cases isSilent <;>
    simp [ManualLogf, done, coutPut, hf, filePut, *]

theorem StartManualLogf_cout (text : String) (level : Int) (isSilent : Bool)
    (date : String) (s : Proc) :
    (StartManualLogf text level isSilent date s).state.cout =
      if isSilent then s.cout
      else s.cout ++ (if levelStr level ≠ "" then date ++ " " ++ levelStr level ++ " " ++ text
        else date ++ " " ++ text) := by
  cases isSilent <;> cases hf : s.logFile_ <;>
    simp [StartManualLogf, done, coutPut, hf, filePut_cout]

theorem StartManualLogf_file (text : String) (level : Int) (isSilent : Bool)
    (date : String) (s : Proc) (p : String) (hopen : openPath s = some p) :
    fileText (StartManualLogf text level isSilent date s).state p =
      fileText s p ++ (if levelStr level ≠ "" then date ++ " " ++ levelStr level ++ " " ++ text
        else date ++ " " ++ text) := by
  obtain ⟨f, hf, ho, rfl⟩ := openPath_some hopen
  cases isSilent <;>
    simp [StartManualLogf, done, coutPut, hf, filePut, ho, fileText, readFile_appendFile_self]

theorem StartManualLogf_disk (text : String) (level : Int) (isSilent : Bool)
    (date : String) (s : Proc) (hclosed : openPath s = none) :
    (StartManualLogf text level isSilent date s).state.disk = s.disk := by
  rcases openPath_none hclosed with hf | ⟨f, hf, ho⟩ <;> cases isSilent <;>
    simp [StartManualLogf, done, coutPut, hf, filePut, *]

theorem Logln_outcome (line : String) (level : Int) (isSilent : Bool) (date : String)
    (s : Proc) : (Logln line level isSilent date s).outcome = Outcome.returned := rfl

theorem andThen_Logln (line : String) (level : Int) (isSilent : Bool) (date : String)
    (s : Proc) (k : Proc → Result) :
    (Logln line level isSilent date s).andThen k =
      k (Logln line level isSilent date s).state := rfl

theorem Logln_cout (line : String) (level : Int) (isSilent : Bool) (date : String)
    (s : Proc) :
    (Logln line level isSilent date s).state.cout =
      if isSilent then s.cout
      else s.cout ++ ((if levelStr level ≠ "" then date ++ " " ++ levelStr level ++ " " ++ line
        else date ++ " " ++ line) ++ "\n") := by
  cases isSilent <;> cases hf : s.logFile_ <;>
    simp [Logln, done, coutPut, hf, filePut_cout, String.append_assoc]

theorem Logln_file (line : String) (level : Int) (isSilent : Bool) (date : String)
    (s : Proc) (p : String) (hopen : openPath s = some p) :
    fileText (Logln line level isSilent date s).state p =
      fileText s p ++ ((if levelStr level ≠ "" then date ++ " " ++ levelStr level ++ " " ++ line
        else date ++ " " ++ line) ++ "\n") := by
  obtain ⟨f, hf, ho, rfl⟩ := openPath_some hopen
  cases isSilent <;>
    simp [Logln, done, coutPut, hf, filePut, ho, fileText, readFile_appendFile_self,
      String.append_assoc]

theorem Logln_disk (line : String) (level : Int) (isSilent : Bool) (date : String)
    (s : Proc) (hclosed : openPath s = none) :
    (Logln line level isSilent date s).state.disk = s.disk := by
  rcases openPath_none hclosed with hf | ⟨f, hf, ho⟩ <;> cases isSilent <;>
    simp [Logln, done, coutPut, hf, filePut, *]

/-! ### Logln and the raw writers -/

/-- C2: with a log file open at `p`, Logln(line, level, false) appends to the
console the timestamp, a blank, the level's label and a blank when the label is
not empty, the line and a newline, and appends the same text to the file. -/
theorem Logln_console_and_file (line : String) (level : Int) (date : String) (s : Proc)
    (p : String) (hopen : openPath s = some p) :
    (Logln line level false date s).state.cout =
      s.cout ++ (if levelStr level ≠ "" then date ++ " " ++ levelStr level ++ " " ++ line ++ "\n"
        else date ++ " " ++ line ++ "\n") ∧
    fileText (Logln line level false date s).state p =
      fileText s p ++ (if levelStr level ≠ "" then date ++ " " ++ levelStr level ++ " " ++ line ++ "\n"
        else date ++ " " ++ line ++ "\n") := by
  refine ⟨?_, ?_⟩
  · rw [Logln_cout]
    by_cases h : levelStr level = "" <;> simp [h]
  · rw [Logln_file line level false date s p hopen]
    by_cases h : levelStr level = "" <;> simp [h]

/-- C2 on the sample process, once with a labelled level and once with an
unlabelled one. -/
theorem Logln_console_and_file_witness :
    openPath sampleOpen = some "app.log" ∧
    (Logln "x" 0 false "2024/01/02 03:04:05" sampleOpen).state.cout =
      "> 2024/01/02 03:04:05 INFO x\n" ∧
    fileText (Logln "x" 0 false "2024/01/02 03:04:05" sampleOpen).state "app.log" =
      "old\n2024/01/02 03:04:05 INFO x\n" ∧
    (Logln "x" 9 false "2024/01/02 03:04:05" sampleOpen).state.cout =
      "> 2024/01/02 03:04:05 x\n" :=
  ⟨by decide,
    (Logln_console_and_file "x" 0 "2024/01/02 03:04:05" sampleOpen "app.log" (by decide)).1.trans
      (by decide),
    (Logln_console_and_file "x" 0 "2024/01/02 03:04:05" sampleOpen "app.log" (by decide)).2.trans
      (by decide),
    (Logln_console_and_file "x" 9 "2024/01/02 03:04:05" sampleOpen "app.log" (by decide)).1.trans
      (by decide)⟩

/-- C3: a silent Logln leaves the console as it was while an open file gets
the whole rendered line; and without an open file Logln and ManualLogf return
normally, leave every file as it was, and write to the console unless
silent. -/
theorem silent_and_no_file (line text : String) (level : Int) (isSilent : Bool)
    (date : String) (s : Proc) :
    ((Logln line level true date s).state.cout = s.cout ∧
      ∀ p : String, openPath s = some p →
        fileText (Logln line level true date s).state p =
          fileText s p ++ (if levelStr level ≠ "" then date ++ " " ++ levelStr level ++ " " ++ line ++ "\n"
            else date ++ " " ++ line ++ "\n")) ∧
    (openPath s = none →
      (Logln line level isSilent date s).outcome = Outcome.returned ∧
      (Logln line level isSilent date s).state.disk = s.disk ∧
      (Logln line level isSilent date s).state.cout =
        (if isSilent then s.cout
          else s.cout ++ (if levelStr level ≠ "" then date ++ " " ++ levelStr level ++ " " ++ line ++ "\n"
            else date ++ " " ++ line ++ "\n")) ∧
      (ManualLogf text level isSilent s).outcome = Outcome.returned ∧
      (ManualLogf text level isSilent s).state.disk = s.disk ∧
      (ManualLogf text level isSilent s).state.cout =
        (if isSilent then s.cout else s.cout ++ text)) := by
  refine ⟨⟨?_, ?_⟩, ?_⟩
  · rw [Logln_cout]
    simp
  · intro p hopen
    rw [Logln_file line level true date s p hopen]
    by_cases h : levelStr level = "" <;> simp [h]
  · intro hclosed
    refine ⟨rfl, Logln_disk line level isSilent date s hclosed, ?_, rfl,
      ManualLogf_disk text level isSilent s hclosed, ManualLogf_cout text level isSilent s⟩
    rw [Logln_cout]
    by_cases h : levelStr level = "" <;> cases isSilent <;> simp [h]

/-- C3 on the sample processes: a silent line with the file open, and a line
and a raw text without a file. -/
theorem silent_and_no_file_witness :
    (Logln "x" 2 true "D" sampleOpen).state.cout = "> " ∧
    (openPath sampleOpen = some "app.log" ∧
      fileText (Logln "x" 2 true "D" sampleOpen).state "app.log" = "old\nD ERROR x\n") ∧
    (openPath sampleClosed = none ∧
      (Logln "x" 2 false "D" sampleClosed).state.disk = sampleClosed.disk ∧
      (Logln "x" 2 false "D" sampleClosed).state.cout = "> D ERROR x\n" ∧
      (ManualLogf "t" 2 false sampleClosed).state.cout = "> t") :=
  ⟨(silent_and_no_file "x" "t" 2 true "D" sampleOpen).1.1,
    ⟨by decide,
      ((silent_and_no_file "x" "t" 2 true "D" sampleOpen).1.2 "app.log" (by decide)).trans
        (by decide)⟩,
    ⟨by decide,
      ((silent_and_no_file "x" "t" 2 false "D" sampleClosed).2 (by decide)).2.1,
      ((silent_and_no_file "x" "t" 2 false "D" sampleClosed).2 (by decide)).2.2.1.trans
        (by decide),
      ((silent_and_no_file "x" "t" 2 false "D" sampleClosed).2 (by decide)).2.2.2.2.2.trans
        (by decide)⟩⟩

/-- C4: ManualLogf and Printf are the same function; the level does not
matter; the call returns, appends exactly the text to the console unless
silent, and appends exactly the text to the file when one is open. -/
theorem ManualLogf_Printf_verbatim (text : String) (level other : Int) (isSilent : Bool)
    (s : Proc) :
    Printf text level isSilent s = ManualLogf text level isSilent s ∧
    ManualLogf text other isSilent s = ManualLogf text level isSilent s ∧
    (ManualLogf text level isSilent s).outcome = Outcome.returned ∧
    (ManualLogf text level isSilent s).state.cout =
      (if isSilent then s.cout else s.cout ++ text) ∧
    ∀ p : String, openPath s = some p →
      fileText (ManualLogf text level isSilent s).state p = fileText s p ++ text :=
  ⟨rfl, rfl, rfl, ManualLogf_cout text level isSilent s,
    fun p hopen => ManualLogf_file text level isSilent s p hopen⟩

/-- C4 on the sample process with its file open. -/
theorem ManualLogf_Printf_verbatim_witness :
    openPath sampleOpen = some "app.log" ∧
    fileText (ManualLogf "abc" 3 true sampleOpen).state "app.log" = "old\nabc" ∧
    (Printf "abc" 3 false sampleOpen).state.cout = "> abc" :=
  ⟨by decide,
    ((ManualLogf_Printf_verbatim "abc" 3 0 true sampleOpen).2.2.2.2 "app.log" (by decide)).trans
      (by decide),
    ((congrArg (fun r => r.state.cout) (ManualLogf_Printf_verbatim "abc" 3 0 false sampleOpen).1).trans
      (ManualLogf_Printf_verbatim "abc" 3 0 false sampleOpen).2.2.2.1).trans (by decide)⟩

/-- C5, as stated, fails: with isSilent set and no file open neither function
writes anything, so what Logln adds to the console (nothing) is not what
StartManualLogf adds followed by a newline. -/
theorem StartManualLogf_newline_counterexample :
    ¬ ∃ t : String,
      (StartManualLogf "x" 0 true "D" sampleClosed).state.cout = sampleClosed.cout ++ t ∧
      (Logln "x" 0 true "D" sampleClosed).state.cout = sampleClosed.cout ++ (t ++ "\n") := by
  rintro ⟨t, -, h⟩
  have hl : (Logln "x" 0 true "D" sampleClosed).state.cout = sampleClosed.cout := by decide
  rw [hl] at h
  have hlen := congrArg String.length h
  simp [String.length_append] at hlen
  exact absurd hlen.2 (by decide)

/-- C5, amended: on each sink that is written (the console when isSilent is
false, the file when one is open) the text Logln appends is the text
StartManualLogf appends followed by one newline; on a sink that is not written
(the console when isSilent is true, the files when none is open) neither
function appends anything. -/
theorem Logln_is_StartManualLogf_newline (text : String) (level : Int) (isSilent : Bool)
    (date : String) (s : Proc) :
    (isSilent = false → ∃ t : String,
      (StartManualLogf text level isSilent date s).state.cout = s.cout ++ t ∧
      (Logln text level isSilent date s).state.cout = s.cout ++ (t ++ "\n")) ∧
    (isSilent = true →
      (StartManualLogf text level isSilent date s).state.cout = s.cout ∧
      (Logln text level isSilent date s).state.cout = s.cout) ∧
    (∀ p : String, openPath s = some p → ∃ t : String,
      fileText (StartManualLogf text level isSilent date s).state p = fileText s p ++ t ∧
      fileText (Logln text level isSilent date s).state p = fileText s p ++ (t ++ "\n")) ∧
    (openPath s = none →
      (StartManualLogf text level isSilent date s).state.disk = s.disk ∧
      (Logln text level isSilent date s).state.disk = s.disk) := by
  refine ⟨?_, ?_, ?_, ?_⟩
  · intro hs
    refine ⟨if levelStr level ≠ "" then date ++ " " ++ levelStr level ++ " " ++ text
      else date ++ " " ++ text, ?_, ?_⟩
    · rw [StartManualLogf_cout, hs]
      simp only [Bool.false_eq_true, if_false]
    · rw [Logln_cout, hs]
      simp only [Bool.false_eq_true, if_false]
  · intro hs
    rw [StartManualLogf_cout, Logln_cout, hs]
    simp
  · intro p hopen
    exact ⟨_, StartManualLogf_file text level isSilent date s p hopen,
      Logln_file text level isSilent date s p hopen⟩
  · intro hclosed
    exact ⟨StartManualLogf_disk text level isSilent date s hclosed,
      Logln_disk text level isSilent date s hclosed⟩

/-- C5 amended, on the sample processes: the console when not silent, the
file when open, and the unwritten sinks. -/
theorem Logln_is_StartManualLogf_newline_witness :
    (∃ t : String,
      (StartManualLogf "x" 1 false "D" sampleOpen).state.cout = sampleOpen.cout ++ t ∧
      (Logln "x" 1 false "D" sampleOpen).state.cout = sampleOpen.cout ++ (t ++ "\n")) ∧
    (openPath sampleOpen = some "app.log" ∧ ∃ t : String,
      fileText (StartManualLogf "x" 1 false "D" sampleOpen).state "app.log" =
        fileText sampleOpen "app.log" ++ t ∧
      fileText (Logln "x" 1 false "D" sampleOpen).state "app.log" =
        fileText sampleOpen "app.log" ++ (t ++ "\n")) ∧
    ((StartManualLogf "x" 1 true "D" sampleClosed).state.cout = sampleClosed.cout ∧
      (Logln "x" 1 true "D" sampleClosed).state.cout = sampleClosed.cout) ∧
    (openPath sampleClosed = none ∧
      (StartManualLogf "x" 1 true "D" sampleClosed).state.disk = sampleClosed.disk ∧
      (Logln "x" 1 true "D" sampleClosed).state.disk = sampleClosed.disk) :=
  ⟨(Logln_is_StartManualLogf_newline "x" 1 false "D" sampleOpen).1 rfl,
    ⟨by decide,
      (Logln_is_StartManualLogf_newline "x" 1 false "D" sampleOpen).2.2.1 "app.log" (by decide)⟩,
    (Logln_is_StartManualLogf_newline "x" 1 true "D" sampleClosed).2.1 rfl,
    ⟨by decide, (Logln_is_StartManualLogf_newline "x" 1 true "D" sampleClosed).2.2.2 (by decide)⟩⟩

/-! ### The text of a thrown exception -/

theorem runtimeErrorWhat_of_no_nul (t : String) (h : Char.ofNat 0 ∉ t.data) :
    runtimeErrorWhat t = t := by
  unfold runtimeErrorWhat
  have h1 : t.data.takeWhile (fun c => c != Char.ofNat 0) = t.data := by
    rw [List.takeWhile_eq_self_iff]
    intro c hc
    have hne : c ≠ Char.ofNat 0 := fun e => h (e ▸ hc)
    simpa using hne
  rw [h1]

theorem panic_text_no_nul (msg tail : String) (h : Char.ofNat 0 ∉ msg.data)
    (ht : Char.ofNat 0 ∉ tail.data) :
    Char.ofNat 0 ∉ ("Panic " ++ msg ++ ": " ++ tail).data := by
  have e1 : "Panic ".data = ['P', 'a', 'n', 'i', 'c', ' '] := rfl
  have e2 : ": ".data = [':', ' '] := rfl
  simp only [String.data_append, e1, e2, List.mem_append, not_or]
  exact ⟨⟨⟨by decide, h⟩, by decide⟩, ht⟩

theorem panic_false_what (msg : String) (h : Char.ofNat 0 ∉ msg.data) :
    runtimeErrorWhat ("Panic " ++ msg ++ ": false") = "Panic " ++ msg ++ ": false" := by
  have h1 := runtimeErrorWhat_of_no_nul _ (panic_text_no_nul msg "false" h (by decide))
  simpa [String.append_assoc] using h1

/-! ### The boolean dispatchers -/

/-- C6: with b = true each of errorIfNotFalse, warnIfNotFalse, fatalIfNotFalse
and panicIfNotFalse returns to its caller and leaves the whole process state,
console and files included, as it was: no exit, no exception. -/
theorem ifNotFalse_true_noop (msg date : String) (s : Proc) :
    errorIfNotFalse true msg date s = ⟨Outcome.returned, s⟩ ∧
    warnIfNotFalse true msg date s = ⟨Outcome.returned, s⟩ ∧
    fatalIfNotFalse true msg date s = ⟨Outcome.returned, s⟩ ∧
    panicIfNotFalse true msg date s = ⟨Outcome.returned, s⟩ :=
  ⟨rfl, rfl, rfl, rfl⟩

/-- C7: warnIfNotFalse(false, msg) returns after writing the one line
"<date> WARNING <msg>: false" and a newline to the console, never silenced,
and to the file when one is open; without an open file no file changes. -/
theorem warnIfNotFalse_false_line (msg date : String) (s : Proc) :
    (warnIfNotFalse false msg date s).outcome = Outcome.returned ∧
    (warnIfNotFalse false msg date s).state.cout =
      s.cout ++ (date ++ " WARNING " ++ msg ++ ": false\n") ∧
    (∀ p : String, openPath s = some p →
      fileText (warnIfNotFalse false msg date s).state p =
        fileText s p ++ (date ++ " WARNING " ++ msg ++ ": false\n")) ∧
    (openPath s = none → (warnIfNotFalse false msg date s).state.disk = s.disk) := by
  refine ⟨rfl, ?_, ?_, ?_⟩
  · simp [warnIfNotFalse, boolText, Logln_cout, levelStr, String.append_assoc]
  · intro p hopen
    simp [warnIfNotFalse, boolText, Logln_file _ _ _ _ s p hopen, levelStr, String.append_assoc]
  · intro hclosed
    simp [warnIfNotFalse, Logln_disk _ _ _ _ s hclosed]

/-- C7 on the sample processes. -/
theorem warnIfNotFalse_false_line_witness :
    openPath sampleOpen = some "app.log" ∧
    fileText (warnIfNotFalse false "m" "D" sampleOpen).state "app.log" =
      "old\nD WARNING m: false\n" ∧
    openPath sampleClosed = none ∧
    (warnIfNotFalse false "m" "D" sampleClosed).state.disk = sampleClosed.disk :=
  ⟨by decide,
    ((warnIfNotFalse_false_line "m" "D" sampleOpen).2.2.1 "app.log" (by decide)).trans (by decide),
    by decide,
    (warnIfNotFalse_false_line "m" "D" sampleClosed).2.2.2 (by decide)⟩

/-- C8: fatalIfNotFalse(false, msg) always ends in exit(1), never in a return
or an exception, and at the exit the one line, labelled FATAL, is already on
the console and in the open file. -/
theorem fatalIfNotFalse_false_exits (msg date : String) (s : Proc) :
    (fatalIfNotFalse false msg date s).outcome = Outcome.exited 1 ∧
    (fatalIfNotFalse false msg date s).state.cout =
      s.cout ++ (date ++ " FATAL " ++ ("Fatal error occurred " ++ msg ++ ": false") ++ "\n") ∧
    (∀ p : String, openPath s = some p →
      fileText (fatalIfNotFalse false msg date s).state p =
        fileText s p ++ (date ++ " FATAL " ++ ("Fatal error occurred " ++ msg ++ ": false") ++ "\n")) ∧
    (openPath s = none → (fatalIfNotFalse false msg date s).state.disk = s.disk) := by
  have hrun : fatalIfNotFalse false msg date s =
      ⟨Outcome.exited 1,
        (Logln ("Fatal error occurred " ++ msg ++ ": false") 3 false date s).state⟩ := by
    simp [fatalIfNotFalse, boolText, andThen_Logln, String.append_assoc]
  rw [hrun]
  refine ⟨rfl, ?_, ?_, ?_⟩
  · simp [Logln_cout, levelStr, String.append_assoc]
  · intro p hopen
    simp [Logln_file _ _ _ _ s p hopen, levelStr, String.append_assoc]
  · intro hclosed
    simp [Logln_disk _ _ _ _ s hclosed]

/-- C8 on the sample processes. -/
theorem fatalIfNotFalse_false_exits_witness :
    openPath sampleOpen = some "app.log" ∧
    fileText (fatalIfNotFalse false "m" "D" sampleOpen).state "app.log" =
      "old\nD FATAL Fatal error occurred m: false\n" ∧
    openPath sampleClosed = none ∧
    (fatalIfNotFalse false "m" "D" sampleClosed).state.disk = sampleClosed.disk :=
  ⟨by decide,
    ((fatalIfNotFalse_false_exits "m" "D" sampleOpen).2.2.1 "app.log" (by decide)).trans
      (by decide),
    by decide,
    (fatalIfNotFalse_false_exits "m" "D" sampleClosed).2.2.2 (by decide)⟩

/-- C9, as stated, fails: for the message "a", NUL, "b" the line on the
console carries the whole text "Panic a NUL b: false", while the text of the
exception, read through what(), stops before the NUL: it is "Panic a", not
the message part of the line. -/
theorem panicIfNotFalse_what_counterexample :
    (panicIfNotFalse false sampleNulMsg "D" sampleClosed).state.cout =
      "> D PANIC Panic " ++ sampleNulMsg ++ ": false\n" ∧
    (panicIfNotFalse false sampleNulMsg "D" sampleClosed).outcome = Outcome.thrown "Panic a" ∧
    (panicIfNotFalse false sampleNulMsg "D" sampleClosed).outcome ≠
      Outcome.thrown ("Panic " ++ sampleNulMsg ++ ": false") := by
  decide

/-- C9, amended: panicIfNotFalse(false, msg) always ends in a thrown
exception, never in a return or an exit, after the one line, labelled PANIC,
with the message "Panic <msg>: false" is on the console and in the open file.
The exception's text is that message up to its first NUL character: the whole
message when msg has no NUL character in it. -/
theorem panicIfNotFalse_false_throws (msg date : String) (s : Proc) :
    (panicIfNotFalse false msg date s).outcome =
      Outcome.thrown (runtimeErrorWhat ("Panic " ++ msg ++ ": false")) ∧
    (Char.ofNat 0 ∉ msg.data →
      (panicIfNotFalse false msg date s).outcome =
        Outcome.thrown ("Panic " ++ msg ++ ": false")) ∧
    (panicIfNotFalse false msg date s).state.cout =
      s.cout ++ (date ++ " PANIC " ++ ("Panic " ++ msg ++ ": false") ++ "\n") ∧
    (∀ p : String, openPath s = some p →
      fileText (panicIfNotFalse false msg date s).state p =
        fileText s p ++ (date ++ " PANIC " ++ ("Panic " ++ msg ++ ": false") ++ "\n")) ∧
    (openPath s = none → (panicIfNotFalse false msg date s).state.disk = s.disk) := by
  have hrun : panicIfNotFalse false msg date s =
      ⟨Outcome.thrown (runtimeErrorWhat ("Panic " ++ msg ++ ": false")),
        (Logln ("Panic " ++ msg ++ ": false") 4 false date s).state⟩ := by
    simp [panicIfNotFalse, boolText, andThen_Logln, String.append_assoc]
  rw [hrun]
  refine ⟨rfl, ?_, ?_, ?_, ?_⟩
  · intro hnul
    simp only []
    rw [panic_false_what msg hnul]
  · simp [Logln_cout, levelStr, String.append_assoc]
  · intro p hopen
    simp [Logln_file _ _ _ _ s p hopen, levelStr, String.append_assoc]
  · intro hclosed
    simp [Logln_disk _ _ _ _ s hclosed]

/-- C9 amended, on the sample processes: a message without a NUL character,
and the one with a NUL character. -/
theorem panicIfNotFalse_false_throws_witness :
    (Char.ofNat 0 ∉ "m".data ∧
      (panicIfNotFalse false "m" "D" sampleOpen).outcome = Outcome.thrown "Panic m: false") ∧
    (panicIfNotFalse false sampleNulMsg "D" sampleOpen).outcome = Outcome.thrown "Panic a" ∧
    (openPath sampleOpen = some "app.log" ∧
      fileText (panicIfNotFalse false "m" "D" sampleOpen).state "app.log" =
        "old\nD PANIC Panic m: false\n") ∧
    (openPath sampleClosed = none ∧
      (panicIfNotFalse false "m" "D" sampleClosed).state.disk = sampleClosed.disk) :=
  ⟨⟨by decide, (panicIfNotFalse_false_throws "m" "D" sampleOpen).2.1 (by decide)⟩,
    (panicIfNotFalse_false_throws sampleNulMsg "D" sampleOpen).1.trans (by decide),
    ⟨by decide,
      ((panicIfNotFalse_false_throws "m" "D" sampleOpen).2.2.2.1 "app.log" (by decide)).trans
        (by decide)⟩,
    ⟨by decide, (panicIfNotFalse_false_throws "m" "D" sampleClosed).2.2.2.2 (by decide)⟩⟩

/-! ### The success or failure combinators -/

/-- C10: with ok = true the four Print...OrSuccessIfNotOk combinators do the
same thing: they return, having written the one line whose message is
"Success <msg>." at successLevel, to the console unless isSuccessSilent and to
the file when one is open. -/
theorem OrSuccessIfNotOk_true_success (msg : String) (successLevel : Int)
    (isSuccessSilent : Bool) (date : String) (s : Proc) :
    (PrintErrorOrSuccessIfNotOk true msg successLevel isSuccessSilent date s =
        PrintWarningOrSuccessIfNotOk true msg successLevel isSuccessSilent date s ∧
      PrintFatalOrSuccessIfNotOk true msg successLevel isSuccessSilent date s =
        PrintWarningOrSuccessIfNotOk true msg successLevel isSuccessSilent date s ∧
      PrintPanicOrSuccessIfNotOk true msg successLevel isSuccessSilent date s =
        PrintWarningOrSuccessIfNotOk true msg successLevel isSuccessSilent date s) ∧
    (PrintWarningOrSuccessIfNotOk true msg successLevel isSuccessSilent date s).outcome =
      Outcome.returned ∧
    (PrintWarningOrSuccessIfNotOk true msg successLevel isSuccessSilent date s).state.cout =
      (if isSuccessSilent then s.cout
        else s.cout ++
          (if levelStr successLevel ≠ "" then
            date ++ " " ++ levelStr successLevel ++ " " ++ ("Success " ++ msg ++ ".") ++ "\n"
          else date ++ " " ++ ("Success " ++ msg ++ ".") ++ "\n")) ∧
    (∀ p : String, openPath s = some p →
      fileText (PrintWarningOrSuccessIfNotOk true msg successLevel isSuccessSilent date s).state p =
        fileText s p ++
          (if levelStr successLevel ≠ "" then
            date ++ " " ++ levelStr successLevel ++ " " ++ ("Success " ++ msg ++ ".") ++ "\n"
          else date ++ " " ++ ("Success " ++ msg ++ ".") ++ "\n")) ∧
    (openPath s = none →
      (PrintWarningOrSuccessIfNotOk true msg successLevel isSuccessSilent date s).state.disk =
        s.disk) := by
  have hrun : PrintWarningOrSuccessIfNotOk true msg successLevel isSuccessSilent date s =
      Logln ("Success " ++ msg ++ ".") successLevel isSuccessSilent date s := rfl
  rw [hrun]
  refine ⟨⟨rfl, rfl, rfl⟩, rfl, ?_, ?_, ?_⟩
  · rw [Logln_cout]
    by_cases h : levelStr successLevel = "" <;> cases isSuccessSilent <;> simp [h]
  · intro p hopen
    rw [Logln_file _ _ _ _ s p hopen]
    by_cases h : levelStr successLevel = "" <;> simp [h]
  · intro hclosed
    exact Logln_disk _ _ _ _ s hclosed

/-- C10 on the sample processes, at level 0. -/
theorem OrSuccessIfNotOk_true_success_witness :
    (PrintFatalOrSuccessIfNotOk true "m" 0 false "D" sampleOpen).state.cout =
      "> D INFO Success m.\n" ∧
    openPath sampleOpen = some "app.log" ∧
    fileText (PrintWarningOrSuccessIfNotOk true "m" 0 true "D" sampleOpen).state "app.log" =
      "old\nD INFO Success m.\n" ∧
    openPath sampleClosed = none ∧
    (PrintWarningOrSuccessIfNotOk true "m" 0 false "D" sampleClosed).state.disk =
      sampleClosed.disk :=
  ⟨((congrArg (fun r => r.state.cout)
      (OrSuccessIfNotOk_true_success "m" 0 false "D" sampleOpen).1.2.1).trans
      (OrSuccessIfNotOk_true_success "m" 0 false "D" sampleOpen).2.2.1).trans (by decide),
    by decide,
    ((OrSuccessIfNotOk_true_success "m" 0 true "D" sampleOpen).2.2.2.1 "app.log"
      (by decide)).trans (by decide),
    by decide,
    (OrSuccessIfNotOk_true_success "m" 0 false "D" sampleClosed).2.2.2.2 (by decide)⟩

/-! ### One line: Logln seen through the sinks -/

theorem filePut_cerr (f : OfStream) (t : String) (s : Proc) :
    (filePut f t s).cerr = s.cerr := by
  unfold filePut
  split <;> rfl

theorem Logln_cerr (line : String) (level : Int) (isSilent : Bool) (date : String)
    (s : Proc) : (Logln line level isSilent date s).state.cerr = s.cerr := by
  cases isSilent <;> cases hf : s.logFile_ <;>
    simp [Logln, done, coutPut, hf, filePut_cerr]

theorem Logln_logFile_ (line : String) (level : Int) (isSilent : Bool) (date : String)
    (s : Proc) : (Logln line level isSilent date s).state.logFile_ = s.logFile_ := by
  cases isSilent <;> cases hf : s.logFile_ <;>
    simp [Logln, done, coutPut, hf, filePut_logFile_]

theorem Logln_other_files (line : String) (level : Int) (isSilent : Bool) (date : String)
    (s : Proc) (p q : String) (hopen : openPath s = some p) (hq : q ≠ p) :
    readFile (Logln line level isSilent date s).state.disk q = readFile s.disk q := by
  obtain ⟨f, hf, ho, rfl⟩ := openPath_some hopen
  cases isSilent <;>
    simp [Logln, done, coutPut, hf, filePut, ho, readFile_appendFile_of_ne _ _ _ _ hq]

theorem Logln_wrote (line : String) (level : Int) (isSilent : Bool) (date : String)
    (s : Proc) :
    Wrote s (Logln line level isSilent date s).state
      (if isSilent then ""
        else (if levelStr level ≠ "" then date ++ " " ++ levelStr level ++ " " ++ line
          else date ++ " " ++ line) ++ "\n")
      ((if levelStr level ≠ "" then date ++ " " ++ levelStr level ++ " " ++ line
        else date ++ " " ++ line) ++ "\n") := by
  refine ⟨?_, Logln_cerr line level isSilent date s, ?_⟩
  · rw [Logln_cout]
    cases isSilent <;> simp
  · cases hp : openPath s with
    | none => exact Logln_disk line level isSilent date s hp
    | some p =>
      exact ⟨Logln_file line level isSilent date s p hp,
        fun q hq => Logln_other_files line level isSilent date s p q hp hq⟩

theorem Logln_wrote_labelled (line date : String) (s : Proc) (level : Int) (lab : String)
    (hlab : levelStr level = lab) (hne : lab ≠ "") :
    Wrote s (Logln line level false date s).state
      (date ++ " " ++ lab ++ " " ++ line ++ "\n") (date ++ " " ++ lab ++ " " ++ line ++ "\n") := by
  have h := Logln_wrote line level false date s
  simpa [hlab, hne] using h

/-! ### Strings: a failure line is no success line, and a line is not empty -/

theorem false_line_ne_dot_line (a b c : String) :
    a ++ (b ++ ": false\n") ≠ a ++ (c ++ ".\n") := by
  intro h
  have h1 := congrArg (fun x => x.data.reverse) h
  have e1 : ": false\n".data = [':', ' ', 'f', 'a', 'l', 's', 'e', '\n'] := rfl
  have e2 : ".\n".data = ['.', '\n'] := rfl
  simp [String.data_append, e1, e2] at h1

theorem not_success_line (out a b pre msg : String) (h : out = a ++ (b ++ ": false\n")) :
    out ≠ a ++ (pre ++ ("Success " ++ msg ++ ".") ++ "\n") := by
  rw [h]
  have h1 := false_line_ne_dot_line a b (pre ++ "Success " ++ msg)
  simpa [String.append_assoc] using h1

theorem append_ne_self (a t : String) (h : 0 < t.length) : a ++ t ≠ a := by
  intro e
  have h1 := congrArg String.length e
  simp [String.length_append] at h1
  omega

theorem Logln_console_grows (line : String) (level : Int) (date : String) (s : Proc) :
    (Logln line level false date s).state.cout ≠ s.cout := by
  rw [Logln_cout]
  simp only [Bool.false_eq_true, if_false]
  apply append_ne_self
  rw [String.length_append]
  have h1 : "\n".length = 1 := rfl
  omega

/-! ### The boolean dispatchers with a false condition -/

theorem warnIfNotFalse_false_run (msg date : String) (s : Proc) :
    warnIfNotFalse false msg date s = Logln (msg ++ ": false") 1 false date s := by
  simp [warnIfNotFalse, boolText, String.append_assoc]

theorem errorIfNotFalse_false_run (msg date : String) (s : Proc) :
    errorIfNotFalse false msg date s =
      Logln ("Error occurred " ++ msg ++ ": false") 2 false date s := by
  simp [errorIfNotFalse, boolText, String.append_assoc]

theorem fatalIfNotFalse_false_run (msg date : String) (s : Proc) :
    fatalIfNotFalse false msg date s =
      ⟨Outcome.exited 1,
        (Logln ("Fatal error occurred " ++ msg ++ ": false") 3 false date s).state⟩ := by
  simp [fatalIfNotFalse, boolText, andThen_Logln, String.append_assoc]

theorem panicIfNotFalse_false_run (msg date : String) (s : Proc) :
    panicIfNotFalse false msg date s =
      ⟨Outcome.thrown (runtimeErrorWhat ("Panic " ++ msg ++ ": false")),
        (Logln ("Panic " ++ msg ++ ": false") 4 false date s).state⟩ := by
  simp [panicIfNotFalse, boolText, andThen_Logln, String.append_assoc]

theorem OrSuccessIfNotOk_false_run (msg : String) (successLevel : Int)
    (isSuccessSilent : Bool) (date : String) (s : Proc) :
    PrintWarningOrSuccessIfNotOk false msg successLevel isSuccessSilent date s =
      warnIfNotFalse false msg date s ∧
    PrintErrorOrSuccessIfNotOk false msg successLevel isSuccessSilent date s =
      errorIfNotFalse false msg date s ∧
    PrintFatalOrSuccessIfNotOk false msg successLevel isSuccessSilent date s =
      fatalIfNotFalse false msg date s ∧
    PrintPanicOrSuccessIfNotOk false msg successLevel isSuccessSilent date s =
      panicIfNotFalse false msg date s :=
  ⟨rfl, rfl, rfl, rfl⟩

/-- C11: with ok = false each Print...OrSuccessIfNotOk combinator writes
exactly one line, labelled WARNING, ERROR, FATAL and PANIC in turn, to the
console and to the open file, whatever successLevel and isSuccessSilent are
(the warning and error ones then return, the fatal one exits with status 1,
the panic one throws its message as far as its first NUL character), and
what it puts on the console is no line with the message "Success <msg>.". -/
theorem OrSuccessIfNotOk_false_failure (msg : String) (successLevel : Int)
    (isSuccessSilent : Bool) (date : String) (s : Proc) :
    ((PrintWarningOrSuccessIfNotOk false msg successLevel isSuccessSilent date s).outcome =
        Outcome.returned ∧
      Wrote s (PrintWarningOrSuccessIfNotOk false msg successLevel isSuccessSilent date s).state
        (date ++ " WARNING " ++ (msg ++ ": false") ++ "\n")
        (date ++ " WARNING " ++ (msg ++ ": false") ++ "\n")) ∧
    ((PrintErrorOrSuccessIfNotOk false msg successLevel isSuccessSilent date s).outcome =
        Outcome.returned ∧
      Wrote s (PrintErrorOrSuccessIfNotOk false msg successLevel isSuccessSilent date s).state
        (date ++ " ERROR " ++ ("Error occurred " ++ msg ++ ": false") ++ "\n")
        (date ++ " ERROR " ++ ("Error occurred " ++ msg ++ ": false") ++ "\n")) ∧
    ((PrintFatalOrSuccessIfNotOk false msg successLevel isSuccessSilent date s).outcome =
        Outcome.exited 1 ∧
      Wrote s (PrintFatalOrSuccessIfNotOk false msg successLevel isSuccessSilent date s).state
        (date ++ " FATAL " ++ ("Fatal error occurred " ++ msg ++ ": false") ++ "\n")
        (date ++ " FATAL " ++ ("Fatal error occurred " ++ msg ++ ": false") ++ "\n")) ∧
    ((PrintPanicOrSuccessIfNotOk false msg successLevel isSuccessSilent date s).outcome =
        Outcome.thrown (runtimeErrorWhat ("Panic " ++ msg ++ ": false")) ∧
      (Char.ofNat 0 ∉ msg.data →
        (PrintPanicOrSuccessIfNotOk false msg successLevel isSuccessSilent date s).outcome =
          Outcome.thrown ("Panic " ++ msg ++ ": false")) ∧
      Wrote s (PrintPanicOrSuccessIfNotOk false msg successLevel isSuccessSilent date s).state
        (date ++ " PANIC " ++ ("Panic " ++ msg ++ ": false") ++ "\n")
        (date ++ " PANIC " ++ ("Panic " ++ msg ++ ": false") ++ "\n")) ∧
    ∀ pre : String,
      (PrintWarningOrSuccessIfNotOk false msg successLevel isSuccessSilent date s).state.cout ≠
        s.cout ++ (pre ++ ("Success " ++ msg ++ ".") ++ "\n") ∧
      (PrintErrorOrSuccessIfNotOk false msg successLevel isSuccessSilent date s).state.cout ≠
        s.cout ++ (pre ++ ("Success " ++ msg ++ ".") ++ "\n") ∧
      (PrintFatalOrSuccessIfNotOk false msg successLevel isSuccessSilent date s).state.cout ≠
        s.cout ++ (pre ++ ("Success " ++ msg ++ ".") ++ "\n") ∧
      (PrintPanicOrSuccessIfNotOk false msg successLevel isSuccessSilent date s).state.cout ≠
        s.cout ++ (pre ++ ("Success " ++ msg ++ ".") ++ "\n") := by
  obtain ⟨hw, he, hf, hp⟩ := OrSuccessIfNotOk_false_run msg successLevel isSuccessSilent date s
  rw [hw, he, hf, hp, warnIfNotFalse_false_run, errorIfNotFalse_false_run,
    fatalIfNotFalse_false_run, panicIfNotFalse_false_run]
  have w1 : Wrote s (Logln (msg ++ ": false") 1 false date s).state
      (date ++ " WARNING " ++ (msg ++ ": false") ++ "\n")
      (date ++ " WARNING " ++ (msg ++ ": false") ++ "\n") := by
    have h := Logln_wrote_labelled (msg ++ ": false") date s 1 "WARNING" (by decide) (by decide)
    simpa [String.append_assoc] using h
  have w2 : Wrote s (Logln ("Error occurred " ++ msg ++ ": false") 2 false date s).state
      (date ++ " ERROR " ++ ("Error occurred " ++ msg ++ ": false") ++ "\n")
      (date ++ " ERROR " ++ ("Error occurred " ++ msg ++ ": false") ++ "\n") := by
    have h := Logln_wrote_labelled ("Error occurred " ++ msg ++ ": false") date s 2 "ERROR"
      (by decide) (by decide)
    simpa [String.append_assoc] using h
  have w3 : Wrote s (Logln ("Fatal error occurred " ++ msg ++ ": false") 3 false date s).state
      (date ++ " FATAL " ++ ("Fatal error occurred " ++ msg ++ ": false") ++ "\n")
      (date ++ " FATAL " ++ ("Fatal error occurred " ++ msg ++ ": false") ++ "\n") := by
    have h := Logln_wrote_labelled ("Fatal error occurred " ++ msg ++ ": false") date s 3 "FATAL"
      (by decide) (by decide)
    simpa [String.append_assoc] using h
  have w4 : Wrote s (Logln ("Panic " ++ msg ++ ": false") 4 false date s).state
      (date ++ " PANIC " ++ ("Panic " ++ msg ++ ": false") ++ "\n")
      (date ++ " PANIC " ++ ("Panic " ++ msg ++ ": false") ++ "\n") := by
    have h := Logln_wrote_labelled ("Panic " ++ msg ++ ": false") date s 4 "PANIC"
      (by decide) (by decide)
    simpa [String.append_assoc] using h
  refine ⟨⟨rfl, w1⟩, ⟨rfl, w2⟩, ⟨rfl, w3⟩,
    ⟨rfl, fun hnul => congrArg Outcome.thrown (panic_false_what msg hnul), w4⟩,
    fun pre => ⟨?_, ?_, ?_, ?_⟩⟩
  · exact not_success_line _ s.cout (date ++ " WARNING " ++ msg) pre msg
      (w1.1.trans (by simp [String.append_assoc]))
  · exact not_success_line _ s.cout (date ++ " ERROR " ++ ("Error occurred " ++ msg)) pre msg
      (w2.1.trans (by simp [String.append_assoc]))
  · exact not_success_line _ s.cout (date ++ " FATAL " ++ ("Fatal error occurred " ++ msg)) pre msg
      (w3.1.trans (by simp [String.append_assoc]))
  · exact not_success_line _ s.cout (date ++ " PANIC " ++ ("Panic " ++ msg)) pre msg
      (w4.1.trans (by simp [String.append_assoc]))

/-- C11 on the sample process with its file open: the fatal combinator with
ok = false, a silent success asked for at level 5. -/
theorem OrSuccessIfNotOk_false_failure_witness :
    PrintFatalOrSuccessIfNotOk false "m" 5 true "D" sampleOpen =
      ⟨Outcome.exited 1,
        { sampleOpen with
          cout := "> D FATAL Fatal error occurred m: false\n"
          disk := [("other.txt", "keep"),
            ("app.log", "old\nD FATAL Fatal error occurred m: false\n")] }⟩ ∧
    Wrote sampleOpen (PrintFatalOrSuccessIfNotOk false "m" 5 true "D" sampleOpen).state
      ("D" ++ " FATAL " ++ ("Fatal error occurred " ++ "m" ++ ": false") ++ "\n")
      ("D" ++ " FATAL " ++ ("Fatal error occurred " ++ "m" ++ ": false") ++ "\n") :=
  ⟨by decide, (OrSuccessIfNotOk_false_failure "m" 5 true "D" sampleOpen).2.2.1.2⟩

/-! ### The combinators driven by an error pointer -/

theorem Logln_wrote_line (line : String) (level : Int) (isSilent : Bool) (date : String)
    (s : Proc) :
    Wrote s (Logln line level isSilent date s).state
      (if isSilent then ""
        else if levelStr level ≠ "" then date ++ " " ++ levelStr level ++ " " ++ line ++ "\n"
        else date ++ " " ++ line ++ "\n")
      (if levelStr level ≠ "" then date ++ " " ++ levelStr level ++ " " ++ line ++ "\n"
        else date ++ " " ++ line ++ "\n") := by
  have h := Logln_wrote line level isSilent date s
  by_cases hl : levelStr level = "" <;> simpa [hl] using h

/-- C12: with an error present, whose description is `e`, the four
Print...OrSuccess combinators write exactly one line: "<msg>: <e>" at WARNING,
"Error occurred <msg>: <e>" at ERROR, "Fatal error encountered <msg>: <e>" at
FATAL, "Panic <msg>: <e>" at PANIC; the first two then return, the fatal one
exits with status 1 and the panic one throws that message, as far as its
first NUL character.  With the error
absent all four write only the line "Success <msg>." at successLevel, on the
console unless isSuccessSilent, and return. -/
theorem OrSuccess_error_or_success (msg e : String) (successLevel : Int)
    (isSuccessSilent : Bool) (date : String) (s : Proc) :
    ((PrintWarningOrSuccess msg (some e) successLevel isSuccessSilent date s).outcome =
        Outcome.returned ∧
      Wrote s (PrintWarningOrSuccess msg (some e) successLevel isSuccessSilent date s).state
        (date ++ " WARNING " ++ (msg ++ ": " ++ e) ++ "\n")
        (date ++ " WARNING " ++ (msg ++ ": " ++ e) ++ "\n")) ∧
    ((PrintErrorOrSuccess msg (some e) successLevel isSuccessSilent date s).outcome =
        Outcome.returned ∧
      Wrote s (PrintErrorOrSuccess msg (some e) successLevel isSuccessSilent date s).state
        (date ++ " ERROR " ++ ("Error occurred " ++ msg ++ ": " ++ e) ++ "\n")
        (date ++ " ERROR " ++ ("Error occurred " ++ msg ++ ": " ++ e) ++ "\n")) ∧
    ((PrintFatalOrSuccess msg (some e) successLevel isSuccessSilent date s).outcome =
        Outcome.exited 1 ∧
      Wrote s (PrintFatalOrSuccess msg (some e) successLevel isSuccessSilent date s).state
        (date ++ " FATAL " ++ ("Fatal error encountered " ++ msg ++ ": " ++ e) ++ "\n")
        (date ++ " FATAL " ++ ("Fatal error encountered " ++ msg ++ ": " ++ e) ++ "\n")) ∧
    ((PrintPanicOrSuccess msg (some e) successLevel isSuccessSilent date s).outcome =
        Outcome.thrown (runtimeErrorWhat ("Panic " ++ msg ++ ": " ++ e)) ∧
      (Char.ofNat 0 ∉ msg.data → Char.ofNat 0 ∉ e.data →
        (PrintPanicOrSuccess msg (some e) successLevel isSuccessSilent date s).outcome =
          Outcome.thrown ("Panic " ++ msg ++ ": " ++ e)) ∧
      Wrote s (PrintPanicOrSuccess msg (some e) successLevel isSuccessSilent date s).state
        (date ++ " PANIC " ++ ("Panic " ++ msg ++ ": " ++ e) ++ "\n")
        (date ++ " PANIC " ++ ("Panic " ++ msg ++ ": " ++ e) ++ "\n")) ∧
    (PrintErrorOrSuccess msg none successLevel isSuccessSilent date s =
        PrintWarningOrSuccess msg none successLevel isSuccessSilent date s ∧
      PrintFatalOrSuccess msg none successLevel isSuccessSilent date s =
        PrintWarningOrSuccess msg none successLevel isSuccessSilent date s ∧
      PrintPanicOrSuccess msg none successLevel isSuccessSilent date s =
        PrintWarningOrSuccess msg none successLevel isSuccessSilent date s) ∧
    (PrintWarningOrSuccess msg none successLevel isSuccessSilent date s).outcome =
      Outcome.returned ∧
    Wrote s (PrintWarningOrSuccess msg none successLevel isSuccessSilent date s).state
      (if isSuccessSilent then ""
        else if levelStr successLevel ≠ "" then
          date ++ " " ++ levelStr successLevel ++ " " ++ ("Success " ++ msg ++ ".") ++ "\n"
        else date ++ " " ++ ("Success " ++ msg ++ ".") ++ "\n")
      (if levelStr successLevel ≠ "" then
        date ++ " " ++ levelStr successLevel ++ " " ++ ("Success " ++ msg ++ ".") ++ "\n"
      else date ++ " " ++ ("Success " ++ msg ++ ".") ++ "\n") := by
  have r1 : PrintWarningOrSuccess msg (some e) successLevel isSuccessSilent date s =
      Logln (msg ++ ": " ++ e) 1 false date s := rfl
  have r2 : PrintErrorOrSuccess msg (some e) successLevel isSuccessSilent date s =
      Logln ("Error occurred " ++ msg ++ ": " ++ e) 2 false date s := rfl
  have r3 : PrintFatalOrSuccess msg (some e) successLevel isSuccessSilent date s =
      ⟨Outcome.exited 1,
        (Logln ("Fatal error encountered " ++ msg ++ ": " ++ e) 3 false date s).state⟩ := rfl
  have r4 : PrintPanicOrSuccess msg (some e) successLevel isSuccessSilent date s =
      ⟨Outcome.thrown (runtimeErrorWhat ("Panic " ++ msg ++ ": " ++ e)),
        (Logln ("Panic " ++ msg ++ ": " ++ e) 4 false date s).state⟩ := rfl
  have r0 : PrintWarningOrSuccess msg none successLevel isSuccessSilent date s =
      Logln ("Success " ++ msg ++ ".") successLevel isSuccessSilent date s := rfl
  rw [r1, r2, r3, r4, r0]
  refine ⟨⟨rfl, ?_⟩, ⟨rfl, ?_⟩, ⟨rfl, ?_⟩,
    ⟨rfl, fun hm he => congrArg Outcome.thrown
      (runtimeErrorWhat_of_no_nul _ (panic_text_no_nul msg e hm he)), ?_⟩,
    ⟨rfl, rfl, rfl⟩, rfl, Logln_wrote_line _ successLevel isSuccessSilent date s⟩
  · have h := Logln_wrote_labelled (msg ++ ": " ++ e) date s 1 "WARNING" (by decide) (by decide)
    simpa [String.append_assoc] using h
  · have h := Logln_wrote_labelled ("Error occurred " ++ msg ++ ": " ++ e) date s 2 "ERROR"
      (by decide) (by decide)
    simpa [String.append_assoc] using h
  · have h := Logln_wrote_labelled ("Fatal error encountered " ++ msg ++ ": " ++ e) date s 3
      "FATAL" (by decide) (by decide)
    simpa [String.append_assoc] using h
  · have h := Logln_wrote_labelled ("Panic " ++ msg ++ ": " ++ e) date s 4 "PANIC"
      (by decide) (by decide)
    simpa [String.append_assoc] using h

/-- C12 on the sample process with its file open: a present error through
the panic combinator, an absent one through the error combinator. -/
theorem OrSuccess_error_or_success_witness :
    PrintPanicOrSuccess "m" (some "disk full") 0 true "D" sampleOpen =
      ⟨Outcome.thrown "Panic m: disk full",
        { sampleOpen with
          cout := "> D PANIC Panic m: disk full\n"
          disk := [("other.txt", "keep"), ("app.log", "old\nD PANIC Panic m: disk full\n")] }⟩ ∧
    PrintErrorOrSuccess "m" none 0 true "D" sampleOpen =
      ⟨Outcome.returned,
        { sampleOpen with
          disk := [("other.txt", "keep"), ("app.log", "old\nD INFO Success m.\n")] }⟩ ∧
    (PrintFatalOrSuccess "m" (some "disk full") 0 true "D" sampleOpen).outcome =
      Outcome.exited 1 :=
  ⟨by decide, by decide, (OrSuccess_error_or_success "m" "disk full" 0 true "D" sampleOpen).2.2.1.1⟩

/-! ### The two boolean families -/

/-- C13: errorIfNotOk, warnIfNotOk, fatalIfNotOk and panicIfNotOk are
errorIfNotFalse, warnIfNotFalse, fatalIfNotFalse and panicIfNotFalse: same
outcome, same state after the call.  Each puts a line on the console exactly
when ok is false, and with ok = true returns with the state untouched. -/
theorem IfNotOk_is_IfNotFalse (ok : Bool) (msg date : String) (s : Proc) :
    (errorIfNotOk ok msg date s = errorIfNotFalse ok msg date s ∧
      warnIfNotOk ok msg date s = warnIfNotFalse ok msg date s ∧
      fatalIfNotOk ok msg date s = fatalIfNotFalse ok msg date s ∧
      panicIfNotOk ok msg date s = panicIfNotFalse ok msg date s) ∧
    (((errorIfNotOk ok msg date s).state.cout ≠ s.cout ↔ ok = false) ∧
      ((warnIfNotOk ok msg date s).state.cout ≠ s.cout ↔ ok = false) ∧
      ((fatalIfNotOk ok msg date s).state.cout ≠ s.cout ↔ ok = false) ∧
      ((panicIfNotOk ok msg date s).state.cout ≠ s.cout ↔ ok = false)) ∧
    (ok = true →
      errorIfNotOk ok msg date s = ⟨Outcome.returned, s⟩ ∧
      warnIfNotOk ok msg date s = ⟨Outcome.returned, s⟩ ∧
      fatalIfNotOk ok msg date s = ⟨Outcome.returned, s⟩ ∧
      panicIfNotOk ok msg date s = ⟨Outcome.returned, s⟩) := by
  refine ⟨⟨rfl, rfl, rfl, rfl⟩, ?_, ?_⟩
  · cases ok
    · have h1 : errorIfNotOk false msg date s = errorIfNotFalse false msg date s := rfl
      have h2 : warnIfNotOk false msg date s = warnIfNotFalse false msg date s := rfl
      have h3 : fatalIfNotOk false msg date s = fatalIfNotFalse false msg date s := rfl
      have h4 : panicIfNotOk false msg date s = panicIfNotFalse false msg date s := rfl
      rw [h1, h2, h3, h4, errorIfNotFalse_false_run, warnIfNotFalse_false_run,
        fatalIfNotFalse_false_run, panicIfNotFalse_false_run]
      exact ⟨⟨fun _ => rfl, fun _ => Logln_console_grows _ 2 date s⟩,
        ⟨fun _ => rfl, fun _ => Logln_console_grows _ 1 date s⟩,
        ⟨fun _ => rfl, fun _ => Logln_console_grows _ 3 date s⟩,
        ⟨fun _ => rfl, fun _ => Logln_console_grows _ 4 date s⟩⟩
    · have h1 : errorIfNotOk true msg date s = ⟨Outcome.returned, s⟩ := rfl
      have h2 : warnIfNotOk true msg date s = ⟨Outcome.returned, s⟩ := rfl
      have h3 : fatalIfNotOk true msg date s = ⟨Outcome.returned, s⟩ := rfl
      have h4 : panicIfNotOk true msg date s = ⟨Outcome.returned, s⟩ := rfl
      rw [h1, h2, h3, h4]
      simp
  · intro h
    subst h
    exact ⟨rfl, rfl, rfl, rfl⟩

/-- C13 on the sample process: silent with ok = true, one line with
ok = false. -/
theorem IfNotOk_is_IfNotFalse_witness :
    fatalIfNotOk true "m" "D" sampleOpen = ⟨Outcome.returned, sampleOpen⟩ ∧
    (warnIfNotOk false "m" "D" sampleOpen).state.cout ≠ sampleOpen.cout ∧
    warnIfNotOk false "m" "D" sampleOpen =
      ⟨Outcome.returned,
        { sampleOpen with
          cout := "> D WARNING m: false\n"
          disk := [("other.txt", "keep"), ("app.log", "old\nD WARNING m: false\n")] }⟩ :=
  ⟨((IfNotOk_is_IfNotFalse true "m" "D" sampleOpen).2.2 rfl).2.2.1,
    (IfNotOk_is_IfNotFalse false "m" "D" sampleOpen).2.1.2.1.2 rfl,
    by decide⟩

/-- C14, as stated, fails for the fatal pair: fatalIfNotFalse(false, "m") puts
"Fatal error occurred m: false" on the console where fatalError with an error
described as "false" puts "Fatal error encountered m: false". -/
theorem fatalIfNotFalse_prefix_counterexample :
    (fatalIfNotFalse false "m" "D" sampleClosed).state.cout =
      "> D FATAL Fatal error occurred m: false\n" ∧
    (fatalError "m" (some "false") "D" sampleClosed).state.cout =
      "> D FATAL Fatal error encountered m: false\n" ∧
    fatalIfNotFalse false "m" "D" sampleClosed ≠ fatalError "m" (some "false") "D" sampleClosed := by
  decide

/-- C14, amended: errorIfNotFalse(false, msg), warnIfNotFalse(false, msg) and
panicIfNotFalse(false, msg) end as, and leave the state of, printError,
warningWithError and panicError called with msg and an error described as
"false".  fatalIfNotFalse(false, msg) has fatalError's outcome, exit(1), and
severity, FATAL, but its own prefix: its line's message is
"Fatal error occurred <msg>: false", fatalError's is
"Fatal error encountered <msg>: false". -/
theorem IfNotFalse_false_as_severity_helper (msg date : String) (s : Proc) :
    errorIfNotFalse false msg date s = printError msg (some "false") date s ∧
    warnIfNotFalse false msg date s = warningWithError msg (some "false") date s ∧
    panicIfNotFalse false msg date s = panicError msg (some "false") date s ∧
    (fatalIfNotFalse false msg date s).outcome = Outcome.exited 1 ∧
    (fatalError msg (some "false") date s).outcome = Outcome.exited 1 ∧
    Wrote s (fatalIfNotFalse false msg date s).state
      (date ++ " FATAL " ++ ("Fatal error occurred " ++ msg ++ ": false") ++ "\n")
      (date ++ " FATAL " ++ ("Fatal error occurred " ++ msg ++ ": false") ++ "\n") ∧
    Wrote s (fatalError msg (some "false") date s).state
      (date ++ " FATAL " ++ ("Fatal error encountered " ++ msg ++ ": false") ++ "\n")
      (date ++ " FATAL " ++ ("Fatal error encountered " ++ msg ++ ": false") ++ "\n") := by
  refine ⟨rfl, rfl, rfl, rfl, rfl, ?_, ?_⟩
  · rw [fatalIfNotFalse_false_run]
    have h := Logln_wrote_labelled ("Fatal error occurred " ++ msg ++ ": false") date s 3 "FATAL"
      (by decide) (by decide)
    simpa [String.append_assoc] using h
  · have r : fatalError msg (some "false") date s =
        ⟨Outcome.exited 1,
          (Logln ("Fatal error encountered " ++ msg ++ ": " ++ "false") 3 false date s).state⟩ :=
      rfl
    rw [r]
    have h := Logln_wrote_labelled ("Fatal error encountered " ++ msg ++ ": " ++ "false") date s 3
      "FATAL" (by decide) (by decide)
    simpa [String.append_assoc] using h

/-! ### The life of the file handle -/

/-- C15 fails on the code: CustomInit("a.log") followed by CustomInit("b.log")
in a fresh process, without a Close in between, returns normally and leaves
two streams open: the one `logFile_` points to and the first one, which is
never closed and no longer pointed to. -/
theorem CustomInit_twice_two_handles :
    (initTwice "a.log" "b.log").outcome = Outcome.returned ∧
    (initTwice "a.log" "b.log").state.logFile_ = some ⟨"b.log", true⟩ ∧
    openHandles (initTwice "a.log" "b.log").state = [⟨"b.log", true⟩, ⟨"a.log", true⟩] ∧
    (openHandles (initTwice "a.log" "b.log").state).length = 2 := by
  decide

theorem CustomInit_ok (path : String) (s : Proc) (h : path ∉ s.denied) :
    CustomInit path s =
      ⟨Outcome.returned,
        { s with
          disk := appendFile s.disk path ""
          logFile_ := some ⟨path, true⟩
          leaked := s.logFile_.toList ++ s.leaked }⟩ := by
  simp [CustomInit, h, done]

theorem Close_state (s : Proc) : Close s = ⟨Outcome.returned, { s with logFile_ := none }⟩ := by
  unfold Close
  cases h : s.logFile_ with
  | none =>
    simp only [done]
    congr
    cases s
    simp_all
  | some f => rfl

theorem fileText_appendFile_empty (s : Proc) (path : String) :
    (readFile (appendFile s.disk path "") path).getD "" = fileText s path := by
  simp [readFile_appendFile_self, fileText]

/-- C16: Close returns with `logFile_` null and both sinks as they were; on a
state without a file it changes nothing at all, so Close after Close is Close;
and a write after Close, by Logln or ManualLogf, reaches the console, unless
silent, and no file. -/
theorem Close_clears (line text : String) (level : Int) (isSilent : Bool) (date : String)
    (s : Proc) :
    ((Close s).outcome = Outcome.returned ∧ (Close s).state.logFile_ = none ∧
      (Close s).state.cout = s.cout ∧ (Close s).state.disk = s.disk) ∧
    (s.logFile_ = none → Close s = ⟨Outcome.returned, s⟩) ∧
    (Close s).andThen Close = Close s ∧
    ((Logln line level isSilent date (Close s).state).state.disk = s.disk ∧
      (Logln line level isSilent date (Close s).state).state.cout =
        (if isSilent then s.cout
          else s.cout ++ (if levelStr level ≠ "" then date ++ " " ++ levelStr level ++ " " ++ line ++ "\n"
            else date ++ " " ++ line ++ "\n")) ∧
      (ManualLogf text level isSilent (Close s).state).state.disk = s.disk ∧
      (ManualLogf text level isSilent (Close s).state).state.cout =
        (if isSilent then s.cout else s.cout ++ text)) := by
  have hc : openPath (Close s).state = none := by
    rw [Close_state]
    rfl
  refine ⟨⟨?_, ?_, ?_, ?_⟩, ?_, ?_, ?_, ?_, ?_, ?_⟩
  · rw [Close_state]
  · rw [Close_state]
  · rw [Close_state]
  · rw [Close_state]
  · intro h
    unfold Close
    rw [h]
    rfl
  · rw [Close_state]
    rfl
  · rw [Logln_disk line level isSilent date _ hc, Close_state]
  · rw [Logln_cout, Close_state]
    by_cases h : levelStr level = "" <;> cases isSilent <;> simp [h]
  · rw [ManualLogf_disk text level isSilent _ hc, Close_state]
  · rw [ManualLogf_cout, Close_state]

/-- C16 on the sample processes: Close without a file, and a line written
after closing the open file. -/
theorem Close_clears_witness :
    Close sampleClosed = ⟨Outcome.returned, sampleClosed⟩ ∧
    (Close sampleOpen).state.logFile_ = none ∧
    (Logln "x" 0 false "D" (Close sampleOpen).state).state.disk = sampleOpen.disk ∧
    (Logln "x" 0 false "D" (Close sampleOpen).state).state.cout = "> D INFO x\n" :=
  ⟨(Close_clears "x" "t" 0 false "D" sampleClosed).2.1 rfl,
    (Close_clears "x" "t" 0 false "D" sampleOpen).1.2.1,
    (Close_clears "x" "t" 0 false "D" sampleOpen).2.2.2.1,
    (Close_clears "x" "t" 0 false "D" sampleOpen).2.2.2.2.1.trans (by decide)⟩

theorem ManualLogf_logFile_ (text : String) (level : Int) (isSilent : Bool) (s : Proc) :
    (ManualLogf text level isSilent s).state.logFile_ = s.logFile_ := by
  cases isSilent <;> cases hf : s.logFile_ <;>
    simp [ManualLogf, done, coutPut, hf, filePut_logFile_]

theorem StartManualLogf_logFile_ (text : String) (level : Int) (isSilent : Bool)
    (date : String) (s : Proc) :
    (StartManualLogf text level isSilent date s).state.logFile_ = s.logFile_ := by
  cases isSilent <;> cases hf : s.logFile_ <;>
    simp [StartManualLogf, done, coutPut, hf, filePut_logFile_]

theorem IfNotFalse_logFile_ (b : Bool) (msg date : String) (s : Proc) :
    (errorIfNotFalse b msg date s).state.logFile_ = s.logFile_ ∧
    (warnIfNotFalse b msg date s).state.logFile_ = s.logFile_ ∧
    (fatalIfNotFalse b msg date s).state.logFile_ = s.logFile_ ∧
    (panicIfNotFalse b msg date s).state.logFile_ = s.logFile_ := by
  cases b <;>
    simp [errorIfNotFalse, warnIfNotFalse, fatalIfNotFalse, panicIfNotFalse, andThen_Logln,
      Logln_logFile_, done]

theorem severity_logFile_ (msg e date : String) (s : Proc) :
    (warningWithError msg (some e) date s).state.logFile_ = s.logFile_ ∧
    (warning msg (some e) date s).state.logFile_ = s.logFile_ ∧
    (printError msg (some e) date s).state.logFile_ = s.logFile_ ∧
    (fatalError msg (some e) date s).state.logFile_ = s.logFile_ ∧
    (panicError msg (some e) date s).state.logFile_ = s.logFile_ := by
  simp [warningWithError, warning, printError, fatalError, panicError, andThen_Logln,
    Logln_logFile_]

theorem OrSuccessIfNotOk_logFile_ (ok : Bool) (msg : String) (successLevel : Int)
    (isSuccessSilent : Bool) (date : String) (s : Proc) :
    (PrintWarningOrSuccessIfNotOk ok msg successLevel isSuccessSilent date s).state.logFile_ =
      s.logFile_ ∧
    (PrintErrorOrSuccessIfNotOk ok msg successLevel isSuccessSilent date s).state.logFile_ =
      s.logFile_ ∧
    (PrintFatalOrSuccessIfNotOk ok msg successLevel isSuccessSilent date s).state.logFile_ =
      s.logFile_ ∧
    (PrintPanicOrSuccessIfNotOk ok msg successLevel isSuccessSilent date s).state.logFile_ =
      s.logFile_ := by
  cases ok
  · obtain ⟨h1, h2, h3, h4⟩ := OrSuccessIfNotOk_false_run msg successLevel isSuccessSilent date s
    rw [h1, h2, h3, h4]
    obtain ⟨e1, e2, e3, e4⟩ := IfNotFalse_logFile_ false msg date s
    exact ⟨e2, e1, e3, e4⟩
  · exact ⟨Logln_logFile_ _ _ _ _ _, Logln_logFile_ _ _ _ _ _, Logln_logFile_ _ _ _ _ _,
      Logln_logFile_ _ _ _ _ _⟩

theorem OrSuccess_logFile_ (msg : String) (err : Option String) (successLevel : Int)
    (isSuccessSilent : Bool) (date : String) (s : Proc) :
    (PrintWarningOrSuccess msg err successLevel isSuccessSilent date s).state.logFile_ =
      s.logFile_ ∧
    (PrintErrorOrSuccess msg err successLevel isSuccessSilent date s).state.logFile_ =
      s.logFile_ ∧
    (PrintFatalOrSuccess msg err successLevel isSuccessSilent date s).state.logFile_ =
      s.logFile_ ∧
    (PrintPanicOrSuccess msg err successLevel isSuccessSilent date s).state.logFile_ =
      s.logFile_ := by
  cases err with
  | none =>
    exact ⟨Logln_logFile_ _ _ _ _ _, Logln_logFile_ _ _ _ _ _, Logln_logFile_ _ _ _ _ _,
      Logln_logFile_ _ _ _ _ _⟩
  | some e =>
    obtain ⟨e1, -, e3, e4, e5⟩ := severity_logFile_ msg e date s
    exact ⟨e1, e3, e4, e5⟩

theorem CustomInit_logFile_ (path : String) (s : Proc) :
    (CustomInit path s).state.logFile_ = some ⟨path, decide (path ∉ s.denied)⟩ := by
  by_cases h : path ∈ s.denied <;> simp [CustomInit, h, done, cerrPut]

/-- C17: every write and helper function leaves the pointer `logFile_` as it
found it, whatever the way the call ends: the four writers, printSuccess, the
severity helpers on a present error, both boolean families and both families
of combinators.  CustomInit and Init set it to the new stream and Close to
null. -/
theorem writers_keep_logFile_ (text msg e : String) (level successLevel : Int)
    (isSilent isSuccessSilent b ok : Bool) (err : Option String) (date : String) (s : Proc) :
    ((ManualLogf text level isSilent s).state.logFile_ = s.logFile_ ∧
      (Printf text level isSilent s).state.logFile_ = s.logFile_ ∧
      (StartManualLogf text level isSilent date s).state.logFile_ = s.logFile_ ∧
      (Logln text level isSilent date s).state.logFile_ = s.logFile_ ∧
      (printSuccess msg successLevel isSilent date s).state.logFile_ = s.logFile_) ∧
    ((warningWithError msg (some e) date s).state.logFile_ = s.logFile_ ∧
      (warning msg (some e) date s).state.logFile_ = s.logFile_ ∧
      (printError msg (some e) date s).state.logFile_ = s.logFile_ ∧
      (fatalError msg (some e) date s).state.logFile_ = s.logFile_ ∧
      (panicError msg (some e) date s).state.logFile_ = s.logFile_) ∧
    ((errorIfNotFalse b msg date s).state.logFile_ = s.logFile_ ∧
      (warnIfNotFalse b msg date s).state.logFile_ = s.logFile_ ∧
      (fatalIfNotFalse b msg date s).state.logFile_ = s.logFile_ ∧
      (panicIfNotFalse b msg date s).state.logFile_ = s.logFile_) ∧
    ((errorIfNotOk ok msg date s).state.logFile_ = s.logFile_ ∧
      (warnIfNotOk ok msg date s).state.logFile_ = s.logFile_ ∧
      (fatalIfNotOk ok msg date s).state.logFile_ = s.logFile_ ∧
      (panicIfNotOk ok msg date s).state.logFile_ = s.logFile_) ∧
    ((PrintWarningOrSuccessIfNotOk ok msg successLevel isSuccessSilent date s).state.logFile_ =
        s.logFile_ ∧
      (PrintErrorOrSuccessIfNotOk ok msg successLevel isSuccessSilent date s).state.logFile_ =
        s.logFile_ ∧
      (PrintFatalOrSuccessIfNotOk ok msg successLevel isSuccessSilent date s).state.logFile_ =
        s.logFile_ ∧
      (PrintPanicOrSuccessIfNotOk ok msg successLevel isSuccessSilent date s).state.logFile_ =
        s.logFile_) ∧
    ((PrintWarningOrSuccess msg err successLevel isSuccessSilent date s).state.logFile_ =
        s.logFile_ ∧
      (PrintErrorOrSuccess msg err successLevel isSuccessSilent date s).state.logFile_ =
        s.logFile_ ∧
      (PrintFatalOrSuccess msg err successLevel isSuccessSilent date s).state.logFile_ =
        s.logFile_ ∧
      (PrintPanicOrSuccess msg err successLevel isSuccessSilent date s).state.logFile_ =
        s.logFile_) ∧
    ((CustomInit text s).state.logFile_ = some ⟨text, decide (text ∉ s.denied)⟩ ∧
      (Init s).state.logFile_ =
        some ⟨s.defaultLogFileName_, decide (s.defaultLogFileName_ ∉ s.denied)⟩ ∧
      (Close s).state.logFile_ = none) :=
  ⟨⟨ManualLogf_logFile_ text level isSilent s, ManualLogf_logFile_ text level isSilent s,
      StartManualLogf_logFile_ text level isSilent date s,
      Logln_logFile_ text level isSilent date s, Logln_logFile_ _ successLevel isSilent date s⟩,
    severity_logFile_ msg e date s,
    IfNotFalse_logFile_ b msg date s,
    IfNotFalse_logFile_ ok msg date s,
    OrSuccessIfNotOk_logFile_ ok msg successLevel isSuccessSilent date s,
    OrSuccess_logFile_ msg err successLevel isSuccessSilent date s,
    ⟨CustomInit_logFile_ text s, CustomInit_logFile_ s.defaultLogFileName_ s,
      by rw [Close_state]⟩⟩

/-- C17 on the sample process: the handle after a fatal exit and after a
thrown panic is the handle before the call. -/
theorem writers_keep_logFile__witness :
    (fatalIfNotFalse false "m" "D" sampleOpen).state.logFile_ = some ⟨"app.log", true⟩ ∧
    (PrintPanicOrSuccess "m" (some "e") 0 false "D" sampleOpen).state.logFile_ =
      some ⟨"app.log", true⟩ ∧
    (Close sampleOpen).state.logFile_ = none :=
  ⟨(writers_keep_logFile_ "t" "m" "e" 0 0 false false false false (some "e") "D"
      sampleOpen).2.2.1.2.2.1,
    (writers_keep_logFile_ "t" "m" "e" 0 0 false false false false (some "e") "D"
      sampleOpen).2.2.2.2.2.1.2.2.2,
    (writers_keep_logFile_ "t" "m" "e" 0 0 false false false false (some "e") "D"
      sampleOpen).2.2.2.2.2.2.2.2⟩

/-! ### Reopening a log file -/

theorem openThenClose_state (path : String) (s : Proc) (h : path ∉ s.denied) :
    openThenClose path s =
      ⟨Outcome.returned,
        { s with
          disk := appendFile s.disk path ""
          logFile_ := none
          leaked := s.logFile_.toList ++ s.leaked }⟩ := by
  unfold openThenClose
  rw [CustomInit_ok path s h]
  simp [Result.andThen, Close_state]

theorem reopen_state (path : String) (s : Proc) (h : path ∉ s.denied) :
    reopen path s =
      ⟨Outcome.returned,
        { s with
          disk := appendFile (appendFile s.disk path "") path ""
          logFile_ := some ⟨path, true⟩
          leaked := s.logFile_.toList ++ s.leaked }⟩ := by
  unfold reopen
  rw [openThenClose_state path s h]
  simp only [Result.andThen]
  rw [CustomInit_ok path _ (by simpa using h)]
  simp

/-- C18: when the file at `path` can be opened and holds `c` (nothing, when
it does not exist), CustomInit(path); Close(); CustomInit(path);
Logln(line, level, isSilent) returns with the file holding `c` followed by the
rendered line; the file holds `c` after the first open, after the Close and
after the reopen, which appends and does not truncate. -/
theorem reopen_appends (path line c : String) (level : Int) (isSilent : Bool)
    (date : String) (s : Proc) (hpath : path ∉ s.denied) (hc : fileText s path = c) :
    (reopenThenLogln path line level isSilent date s).outcome = Outcome.returned ∧
    fileText (reopenThenLogln path line level isSilent date s).state path =
      c ++ (if levelStr level ≠ "" then date ++ " " ++ levelStr level ++ " " ++ line ++ "\n"
        else date ++ " " ++ line ++ "\n") ∧
    fileText (CustomInit path s).state path = c ∧
    fileText (openThenClose path s).state path = c ∧
    fileText (reopen path s).state path = c := by
  have h1 : fileText (CustomInit path s).state path = c := by
    rw [CustomInit_ok path s hpath, ← hc]
    simp [fileText, readFile_appendFile_self]
  have h2 : fileText (openThenClose path s).state path = c := by
    rw [openThenClose_state path s hpath, ← hc]
    simp [fileText, readFile_appendFile_self]
  have h3 : fileText (reopen path s).state path = c := by
    rw [reopen_state path s hpath, ← hc]
    simp [fileText, readFile_appendFile_self]
  have hopen : openPath (reopen path s).state = some path := by
    rw [reopen_state path s hpath]
    rfl
  have hrun : reopenThenLogln path line level isSilent date s =
      Logln line level isSilent date (reopen path s).state := by
    unfold reopenThenLogln
    rw [reopen_state path s hpath]
    rfl
  refine ⟨?_, ?_, h1, h2, h3⟩
  · rw [hrun]
    rfl
  · rw [hrun, Logln_file line level isSilent date _ path hopen, h3]
    by_cases h : levelStr level = "" <;> simp [h]

/-- C18 on the sample process without a file: "app.log" holds "old\n" and is
reopened; and a path with no file yet. -/
theorem reopen_appends_witness :
    ("app.log" ∉ sampleClosed.denied ∧ fileText sampleClosed "app.log" = "old\n") ∧
    fileText (reopenThenLogln "app.log" "x" 1 true "D" sampleClosed).state "app.log" =
      "old\nD WARNING x\n" ∧
    fileText (openThenClose "app.log" sampleClosed).state "app.log" = "old\n" ∧
    fileText (reopenThenLogln "new.log" "x" 7 false "D" sampleClosed).state "new.log" =
      "D x\n" :=
  ⟨⟨by decide, by decide⟩,
    (reopen_appends "app.log" "x" "old\n" 1 true "D" sampleClosed (by decide) (by decide)).2.1.trans
      (by decide),
    (reopen_appends "app.log" "x" "old\n" 1 true "D" sampleClosed (by decide) (by decide)).2.2.2.1,
    (reopen_appends "new.log" "x" "" 7 false "D" sampleClosed (by decide) (by decide)).2.1.trans
      (by decide)⟩

/-! ### The error pointer is tested before it is read -/

/-- C19: whatever the error argument, absent or present, no
Print...OrSuccess combinator ends in a null dereference: with the error
absent each of them is printSuccess and the helper that reads the error's
description is not called, although each of those helpers does dereference a
null pointer when called with one. -/
theorem OrSuccess_no_null_dereference (msg : String) (err : Option String)
    (successLevel : Int) (isSuccessSilent : Bool) (date : String) (s : Proc) :
    ((PrintWarningOrSuccess msg err successLevel isSuccessSilent date s).outcome ≠
        Outcome.nullDeref ∧
      (PrintErrorOrSuccess msg err successLevel isSuccessSilent date s).outcome ≠
        Outcome.nullDeref ∧
      (PrintFatalOrSuccess msg err successLevel isSuccessSilent date s).outcome ≠
        Outcome.nullDeref ∧
      (PrintPanicOrSuccess msg err successLevel isSuccessSilent date s).outcome ≠
        Outcome.nullDeref) ∧
    (PrintWarningOrSuccess msg none successLevel isSuccessSilent date s =
        printSuccess msg successLevel isSuccessSilent date s ∧
      PrintErrorOrSuccess msg none successLevel isSuccessSilent date s =
        printSuccess msg successLevel isSuccessSilent date s ∧
      PrintFatalOrSuccess msg none successLevel isSuccessSilent date s =
        printSuccess msg successLevel isSuccessSilent date s ∧
      PrintPanicOrSuccess msg none successLevel isSuccessSilent date s =
        printSuccess msg successLevel isSuccessSilent date s) ∧
    ((warningWithError msg none date s).outcome = Outcome.nullDeref ∧
      (printError msg none date s).outcome = Outcome.nullDeref ∧
      (fatalError msg none date s).outcome = Outcome.nullDeref ∧
      (panicError msg none date s).outcome = Outcome.nullDeref) := by
  refine ⟨?_, ⟨rfl, rfl, rfl, rfl⟩, ⟨rfl, rfl, rfl, rfl⟩⟩
  cases err with
  | none =>
    have h : (printSuccess msg successLevel isSuccessSilent date s).outcome ≠
        Outcome.nullDeref := by
      intro e
      cases e
    exact ⟨h, h, h, h⟩
  | some e =>
    have r1 : (PrintWarningOrSuccess msg (some e) successLevel isSuccessSilent date s).outcome =
        Outcome.returned := rfl
    have r2 : (PrintErrorOrSuccess msg (some e) successLevel isSuccessSilent date s).outcome =
        Outcome.returned := rfl
    have r3 : (PrintFatalOrSuccess msg (some e) successLevel isSuccessSilent date s).outcome =
        Outcome.exited 1 := rfl
    have r4 : (PrintPanicOrSuccess msg (some e) successLevel isSuccessSilent date s).outcome =
        Outcome.thrown (runtimeErrorWhat ("Panic " ++ msg ++ ": " ++ e)) := rfl
    rw [r1, r2, r3, r4]
    exact ⟨by simp, by simp, by simp, by simp⟩

end logln
